import Mathlib

/-! # Control_Lavadora_ATTiny10: spin-cycle timer firmware

Shallow embedding of `src/ATTINY10_LAVADORA/main.cpp`.

* Every global variable and every I/O register the program touches is a field of
  `State`.  8-bit and 16-bit machine integers are natural numbers; the places where
  the C code truncates (`uint8_t` additions, the `uint16_t` parameter of
  `Iniciar_Conteo`) carry an explicit `% 256` or `% 65536`.
* Every C function is a function `State → State`.
* `_delay_ms`, the buzzer pin switches and the entries of the two sound routines are
  recorded in the ghost field `log`, in program order, so that "the alarm is played
  once" is a statement about the log.  The log never influences control flow.
* The hardware timer count `TCNT0` changes only through the program's own writes.
* In the routines of the first part no timer overflow is served while a main-loop
  iteration runs; that is the setting of the statements that are about one routine
  or that assume no interrupt during the iteration.  The section "The machine with
  the overflow flag of the timer" gives the same routines on a machine that carries
  the flag `TOV0`: there the overflow a tone leaves pending is served when line 150
  enables the interrupt again.  The statements on START with an empty counter, on
  the relay and the counting timer, on the counter and the overflow interrupt, and on
  the PAUSE and START round trip are made on that machine.
-/

namespace Lavadora

/-! ## Constants -/

/-- Clock frequency, line 10 of the source. -/
def F_CPU : Nat := 980000

/-- Lower bound of the band of the 1 minute button, line 28. -/
def _1_Minuto : Nat := 99
/-- Lower bound of the band of the 5 minute button, line 29. -/
def _5_Minuto : Nat := 108
/-- Lower bound of the band of the 10 minute button, line 30. -/
def _10_Minuto : Nat := 130
/-- Lower bound of the band of the start button, line 31. -/
def START : Nat := 51
/-- Lower bound of the band of the pause button, line 32. -/
def PAUSE : Nat := 74
/-- Lower bound of the band of the stop button, line 33. -/
def STOP : Nat := 89

/-- Timer start offset for one minute, line 52. -/
def Set_1min : Nat := 65536 - ((F_CPU * 60) / 1024)
/-- Timer start offset for one second, line 53. -/
def Set_1seg : Nat := 65536 - (F_CPU / 1024)

/-! Bit numbers of the ATtiny10 registers, as the device header `avr/io.h` gives
them (the header belongs to the toolchain, not to the repository). -/

def PORTB1 : Nat := 1
def PORTB2 : Nat := 2
def CS00 : Nat := 0
def CS02 : Nat := 2
def WGM01 : Nat := 1
def WGM02 : Nat := 3
def WGM03 : Nat := 4
def COM0B1 : Nat := 5
def TOIE0 : Nat := 0
def MUX0 : Nat := 0
def ADPS0 : Nat := 0
def ADPS1 : Nat := 1
def ADPS2 : Nat := 2
def ADIE : Nat := 3
def ADIF : Nat := 4
def ADATE : Nat := 5
def ADSC : Nat := 6
def ADEN : Nat := 7

/-! ## State -/

/-- Observable events of the sound routines, in program order. -/
inductive Ev where
  | call_Activar_Sonido_STOP
  | call_Sonido_PULSACION
  | buzzer_on
  | buzzer_off
  | delay_ms (n : Nat)
deriving DecidableEq, Repr

/-- Global variables (lines 60 to 62), the I/O registers used, and the event log. -/
structure State where
  Tiempo_Acumulado : Nat
  ADC_VALUE : Nat
  Guardar_TCNT0 : Nat
  Flag_Stop : Nat
  Flag_Pause : Nat
  Flag_Start : Nat
  Flag_Beep : Nat
  PORTB : Nat
  DDRB : Nat
  TCNT0 : Nat
  TCCR0A : Nat
  TCCR0B : Nat
  TIMSK0 : Nat
  ICR0 : Nat
  OCR0B : Nat
  ADMUX : Nat
  ADCSRA : Nat
  SREG : Nat
  log : List Ev
deriving DecidableEq, Repr

/-- State at power-on: the globals are zero-initialised, the registers reset to 0. -/
def power_on : State :=
  { Tiempo_Acumulado := 0, ADC_VALUE := 0, Guardar_TCNT0 := 0,
    Flag_Stop := 0, Flag_Pause := 0, Flag_Start := 0, Flag_Beep := 0,
    PORTB := 0, DDRB := 0, TCNT0 := 0, TCCR0A := 0, TCCR0B := 0, TIMSK0 := 0,
    ICR0 := 0, OCR0B := 0, ADMUX := 0, ADCSRA := 0, SREG := 0, log := [] }

/-- An 8-bit register with bit `b` set:  `r |= (1 << b)`. -/
def setBit8 (r b : Nat) : Nat := (r ||| (1 <<< b)) % 256

/-- An 8-bit register with bit `b` cleared:  `r &= ~(1 << b)`, the complement taken
in the 16-bit `int` of the target and the result stored in 8 bits. -/
def clrBit8 (r b : Nat) : Nat := (r &&& (65535 ^^^ (1 <<< b))) % 256

/-! ## The macros of lines 54 to 58 -/

/-- Macro `Rele_ON`:  `PORTB |= (1<<PORTB2)`. -/
def Rele_ON (s : State) : State := { s with PORTB := setBit8 s.PORTB PORTB2 }

/-- Macro `Rele_OFF`:  `PORTB &= ~(1<<PORTB2)`. -/
def Rele_OFF (s : State) : State := { s with PORTB := clrBit8 s.PORTB PORTB2 }

/-- Macro `Beep`:  `ICR0 = (F_CPU / 2000) - 1`. -/
def Beep (s : State) : State := { s with ICR0 := ((F_CPU / 2000) - 1) % 65536 }

/-- Macro `Disable_PWM`:  `DDRB &= ~(1<<PORTB1)`. -/
def Disable_PWM (s : State) : State :=
  { s with DDRB := clrBit8 s.DDRB PORTB1, log := s.log ++ [Ev.buzzer_off] }

/-- Macro `Enable_PWM`:  `DDRB |= (1<<PORTB1)`. -/
def Enable_PWM (s : State) : State :=
  { s with DDRB := setBit8 s.DDRB PORTB1, log := s.log ++ [Ev.buzzer_on] }

/-- Library routine `_delay_ms(n)`: a busy wait, recorded in the log. -/
def _delay_ms (n : Nat) (s : State) : State := { s with log := s.log ++ [Ev.delay_ms n] }

/-! ## The functions -/

/-- Function `ADC_Init`, lines 132 to 144. -/
def ADC_Init (s : State) : State :=
  let s := { s with ADMUX := (s.ADMUX ||| (1 <<< MUX0)) % 256 }
  let s := { s with ADCSRA := (s.ADCSRA ||| ((1 <<< ADEN) ||| (1 <<< ADATE) ||| (1 <<< ADIF)
                                  ||| (1 <<< ADIE) ||| (1 <<< ADSC))) % 256 }
  let s := { s with ADCSRA := (s.ADCSRA ||| ((1 <<< ADPS0) ||| (1 <<< ADPS1)
                                  ||| (1 <<< ADPS2))) % 256 }
  { s with SREG := setBit8 s.SREG 7 }

/-- Function `Iniciar_Conteo`, lines 146 to 153; the argument is converted to
`uint16_t` at the call. -/
def Iniciar_Conteo (tcnt0 : Nat) (s : State) : State :=
  if s.Tiempo_Acumulado > 0 then
    let s := { s with TCNT0 := tcnt0 % 65536 }
    let s := { s with TCCR0B := (1 <<< CS02) ||| (1 <<< CS00) }
    let s := { s with TIMSK0 := (1 <<< TOIE0) }
    Rele_ON s
  else s

/-- Function `Parar_Conteo`, lines 155 to 158. -/
def Parar_Conteo (s : State) : State :=
  let s := Rele_OFF s
  { s with TCCR0B := 0, TIMSK0 := 0 }

/-- Interrupt routine `ISR(ADC_vect)`, lines 160 to 162; `adcl` is the value read
from the register `ADCL`. -/
def ISR_ADC_vect (adcl : Nat) (s : State) : State := { s with ADC_VALUE := adcl % 256 }

/-- Interrupt routine `ISR(TIM0_OVF_vect)`, lines 164 to 176. -/
def ISR_TIM0_OVF_vect (s : State) : State :=
  if s.Tiempo_Acumulado = 1 then
    { s with Tiempo_Acumulado := 0, Flag_Stop := 1 }
  else if s.Tiempo_Acumulado > 1 ∧ s.Flag_Beep = 1 then
    { s with Tiempo_Acumulado := (s.Tiempo_Acumulado - 1) % 256 }
  else if s.Tiempo_Acumulado > 1 then
    { s with Tiempo_Acumulado := (s.Tiempo_Acumulado - 1) % 256, TCNT0 := Set_1min % 65536 }
  else s

/-- Function `PWM__Beep_Enable`, lines 224 to 230. -/
def PWM__Beep_Enable (s : State) : State :=
  let s := { s with TCCR0A := (1 <<< COM0B1) ||| (1 <<< WGM01) }
  let s := { s with TCCR0B := (1 <<< WGM02) ||| (1 <<< WGM03) ||| (1 <<< CS00) }
  let s := Beep s
  { s with OCR0B := s.ICR0 / 2 }

/-- Function `PWM__Beep_Disable`, lines 232 to 234. -/
def PWM__Beep_Disable (s : State) : State :=
  { s with TCCR0A := 0, TIMSK0 := 0, OCR0B := 0, ICR0 := 0, TCCR0B := 0 }

/-- Function `Enable_Beep`, lines 236 to 241. -/
def Enable_Beep (s : State) : State :=
  let s := Enable_PWM s
  let s := _delay_ms 250 s
  let s := Disable_PWM s
  _delay_ms 150 s

/-- Body of the `for` loop of `Activar_Sonido_STOP`, lines 187 to 191. -/
def Activar_Sonido_STOP_body (s : State) : State :=
  let s := Enable_Beep s
  let s := Enable_Beep s
  let s := Enable_Beep s
  let s := Enable_Beep s
  _delay_ms 250 s

/-- The loop `for (Sound = 0; Sound < 3; ++Sound)` of line 186, started at `Sound`;
`fuel` bounds the number of times the test `Sound < 3` is evaluated. -/
def Activar_Sonido_STOP_for : Nat → Nat → State → State
  | 0, _, s => s
  | fuel + 1, Sound, s =>
    if Sound < 3 then
      Activar_Sonido_STOP_for fuel ((Sound + 1) % 256) (Activar_Sonido_STOP_body s)
    else s

/-- Function `Activar_Sonido_STOP`, lines 178 to 194.  The loop test is evaluated
four times (three passes and the exit), so fuel 4 lets the loop end by its test. -/
def Activar_Sonido_STOP (s : State) : State :=
  let s := { s with log := s.log ++ [Ev.call_Activar_Sonido_STOP] }
  let s := PWM__Beep_Enable s
  let s := Activar_Sonido_STOP_for 4 0 s
  PWM__Beep_Disable s

/-- The tone of `Sonido_PULSACION`, the five statements that both branches share
(lines 203 to 208 and 213 to 218). -/
def Sonido_PULSACION_tono (s : State) : State :=
  let s := PWM__Beep_Enable s
  let s := Enable_PWM s
  let s := _delay_ms 170 s
  let s := Disable_PWM s
  let s := _delay_ms 170 s
  PWM__Beep_Disable s

/-- Function `Sonido_PULSACION`, lines 196 to 222. -/
def Sonido_PULSACION (s : State) : State :=
  let s := { s with log := s.log ++ [Ev.call_Sonido_PULSACION] }
  let s := { s with Tiempo_Acumulado := (s.Tiempo_Acumulado + 1) % 256 }
  let s := { s with TIMSK0 := 0 }
  if s.Flag_Start = 1 then
    let s := { s with Flag_Beep := 1 }
    let s := { s with Guardar_TCNT0 := s.TCNT0 }
    let s := Sonido_PULSACION_tono s
    let s := Iniciar_Conteo (s.Guardar_TCNT0 + 340) s
    { s with Flag_Beep := 0 }
  else
    Sonido_PULSACION_tono s

/-! ## The main loop -/

/-- The arms of the `switch` of lines 81 to 121. -/
inductive ButtonEvent where
  | START | STOP | PAUSE | ADD_1MIN | ADD_5MIN | ADD_10MIN | NONE
deriving DecidableEq, Repr

/-- The `case` labels of the `switch(ADC_VALUE)`, in the order of the source, each
with the lower and the upper bound of its range:  `case START ... (START+10)`,
`case STOP ... (STOP+9)`, `case PAUSE ... (PAUSE+10)`,
`case _1_Minuto ... (_1_Minuto+8)`, `case _5_Minuto ... (_5_Minuto+10)`,
`case _10_Minuto ... (_10_Minuto+10)`. -/
def case_labels : List (ButtonEvent × Nat × Nat) :=
  [ (ButtonEvent.START, START, START + 10),
    (ButtonEvent.STOP, STOP, STOP + 9),
    (ButtonEvent.PAUSE, PAUSE, PAUSE + 10),
    (ButtonEvent.ADD_1MIN, _1_Minuto, _1_Minuto + 8),
    (ButtonEvent.ADD_5MIN, _5_Minuto, _5_Minuto + 10),
    (ButtonEvent.ADD_10MIN, _10_Minuto, _10_Minuto + 10) ]

/-- Which arm the `switch` selects for the value `v`: the first label whose range
holds `v`, and no arm when there is none (the `switch` has no `default`). -/
def switch_case (v : Nat) : ButtonEvent :=
  match case_labels.find? (fun c => decide (c.2.1 ≤ v ∧ v ≤ c.2.2)) with
  | some c => c.1
  | none => ButtonEvent.NONE

/-- First part of `case START`, lines 83 to 88: the resume or fresh start. -/
def case_START_inicio (s : State) : State :=
  let s :=
    if s.Flag_Pause = 1 then
      let s := Iniciar_Conteo s.Guardar_TCNT0 s
      { s with Flag_Pause := 0 }
    else
      Iniciar_Conteo Set_1min s
  { s with Flag_Start := 1 }

/-- Arm `case START`, lines 82 to 90. -/
def case_START (s : State) : State :=
  Sonido_PULSACION (case_START_inicio s)

/-- Arm `case STOP`, lines 92 to 96. -/
def case_STOP (s : State) : State :=
  let s := Parar_Conteo s
  let s := { s with Flag_Start := 0, Tiempo_Acumulado := 0 }
  Activar_Sonido_STOP s

/-- Arm `case PAUSE`, lines 98 to 105. -/
def case_PAUSE (s : State) : State :=
  if s.Flag_Pause = 0 then
    let s := Sonido_PULSACION s
    let s := { s with Guardar_TCNT0 := s.TCNT0 }
    let s := Parar_Conteo s
    { s with Flag_Pause := 1 }
  else s

/-- Arms `case _1_Minuto`, `case _5_Minuto` and `case _10_Minuto`, lines 107 to 120,
which differ in the number `n` of minutes added. -/
def case_Minuto (n : Nat) (s : State) : State :=
  let s := { s with Tiempo_Acumulado := (s.Tiempo_Acumulado + n) % 256 }
  Sonido_PULSACION s

/-- The `switch` statement of lines 81 to 121. -/
def main_switch (s : State) : State :=
  match switch_case s.ADC_VALUE with
  | ButtonEvent.START => case_START s
  | ButtonEvent.STOP => case_STOP s
  | ButtonEvent.PAUSE => case_PAUSE s
  | ButtonEvent.ADD_1MIN => case_Minuto 1 s
  | ButtonEvent.ADD_5MIN => case_Minuto 5 s
  | ButtonEvent.ADD_10MIN => case_Minuto 10 s
  | ButtonEvent.NONE => s

/-- The completion check of lines 124 to 128. -/
def main_fin (s : State) : State :=
  if s.Tiempo_Acumulado = 0 ∧ s.Flag_Stop = 1 then
    let s := Parar_Conteo s
    let s := { s with Flag_Start := 0, Flag_Stop := 0 }
    Activar_Sonido_STOP s
  else s

/-- One iteration of `while (1)`, lines 79 to 129. -/
def main_loop (s : State) : State := main_fin (main_switch s)

/-- The statements of `main` before the loop, lines 75 to 77. -/
def main_init (s : State) : State :=
  let s := ADC_Init s
  { s with DDRB := (s.DDRB ||| ((1 <<< PORTB1) ||| (1 <<< PORTB2))) % 256 }

/-- One iteration of the main loop that finds the sample `v` in `ADC_VALUE`: the
sampling interrupt stores `v`, then the loop body runs, no timer overflow being served
during the iteration (`iteracion_hw` is the iteration with pending overflows
served). -/
def iteracion (v : Nat) (s : State) : State := main_loop (ISR_ADC_vect v s)

/-- A run of iterations, one per sample of the list, no timer interrupt in between. -/
def iteraciones : List Nat → State → State
  | [], s => s
  | v :: vs, s => iteraciones vs (iteracion v s)

/-! ## Observations -/

/-- The relay bit `PORTB2` of `PORTB`. -/
def relay (s : State) : Bool := s.PORTB.testBit PORTB2

/-- The buzzer pin `PORTB1` is an output in `DDRB`. -/
def buzzer (s : State) : Bool := s.DDRB.testBit PORTB1

/-- The countdown timer runs in counting mode, prescaler 1024, with the overflow
interrupt enabled:  `TCCR0B = (1<<CS02)|(1<<CS00)` and `TIMSK0 = (1<<TOIE0)`. -/
def counting (s : State) : Prop :=
  s.TCCR0B = ((1 <<< CS02) ||| (1 <<< CS00)) ∧ s.TIMSK0 = (1 <<< TOIE0)

instance (s : State) : Decidable (counting s) := by
  unfold counting; infer_instance

/-- The timer is stopped:  `TCCR0B = TIMSK0 = 0`. -/
def stopped (s : State) : Prop := s.TCCR0B = 0 ∧ s.TIMSK0 = 0

instance (s : State) : Decidable (stopped s) := by
  unfold stopped; infer_instance

/-- Number of entries of `Activar_Sonido_STOP` recorded in the log. -/
def alarms (s : State) : Nat := s.log.count Ev.call_Activar_Sonido_STOP

/-- Number of entries of `Sonido_PULSACION` recorded in the log. -/
def chirps (s : State) : Nat := s.log.count Ev.call_Sonido_PULSACION

/-- The values the machine can hold: 8-bit variables and registers below 256, the
16-bit ones below 65536. -/
def WellFormed (s : State) : Prop :=
  s.Tiempo_Acumulado < 256 ∧ s.ADC_VALUE < 256 ∧ s.Guardar_TCNT0 < 65536 ∧
  s.Flag_Stop < 256 ∧ s.Flag_Pause < 256 ∧ s.Flag_Start < 256 ∧ s.Flag_Beep < 256 ∧
  s.PORTB < 256 ∧ s.DDRB < 256 ∧ s.TCNT0 < 65536 ∧ s.TCCR0A < 256 ∧ s.TCCR0B < 256 ∧
  s.TIMSK0 < 256 ∧ s.ICR0 < 65536 ∧ s.OCR0B < 65536 ∧ s.ADMUX < 256 ∧ s.ADCSRA < 256 ∧
  s.SREG < 256

/-- The state at power-on after the initialisation of `main`. -/
def estado_inicial : State := main_init power_on

/-- States reachable from power-on when no timer overflow is served during an
iteration: `main` runs its initialisation, then main-loop iterations (any sample)
alternate with firings of the timer-overflow interrupt between iterations
(`Alcanzable` is reachability on the machine with pending overflows served). -/
inductive Reachable : State → Prop where
  | init : Reachable estado_inicial
  | iter (v : Nat) (s : State) : Reachable s → Reachable (iteracion v s)
  | ovf (s : State) : Reachable s → Reachable (ISR_TIM0_OVF_vect s)

/-- The log entries of one chirp tone. -/
def tono_log : List Ev := [Ev.buzzer_on, Ev.delay_ms 170, Ev.buzzer_off, Ev.delay_ms 170]

/-- The log entries of one burst of `Enable_Beep`. -/
def beep_log : List Ev := [Ev.buzzer_on, Ev.delay_ms 250, Ev.buzzer_off, Ev.delay_ms 150]

/-- The log entries of one pass of the alarm loop: four bursts and the pause. -/
def body_log : List Ev := beep_log ++ beep_log ++ beep_log ++ beep_log ++ [Ev.delay_ms 250]

/-- The log entries of a whole alarm. -/
def alarm_log : List Ev := Ev.call_Activar_Sonido_STOP :: (body_log ++ body_log ++ body_log)

/-- A RUNNING state: `t` minutes left, timer count `p`, countdown timer counting,
relay on, `Flag_Start = 1`, everything else as after power-on. -/
def estado_RUNNING (t p : Nat) : State :=
  { estado_inicial with
    Tiempo_Acumulado := t, Flag_Start := 1, TCNT0 := p,
    TCCR0B := (1 <<< CS02) ||| (1 <<< CS00), TIMSK0 := (1 <<< TOIE0),
    PORTB := setBit8 0 PORTB2 }

/-- The state in which the last minute has just expired: from power-on, one press of
the 1 minute button (sample 100), one press of start (sample 55), then three timer
overflows. -/
def estado_expirado : State :=
  ISR_TIM0_OVF_vect (ISR_TIM0_OVF_vect (ISR_TIM0_OVF_vect
    (iteraciones [100, 55] estado_inicial)))

/-- Samples that drive the minute counter to 255 and then press start: 23 presses of
the 10 minute button (sample 135), one of the 1 minute button (sample 100), then
start (sample 55). -/
def muestras_255 : List Nat := List.replicate 23 135 ++ [100, 55]

/-- The invariant of the main loop that relates the minute counter, the flags, the
overflow interrupt enable and the relay.  It holds in every state reachable from
power-on. -/
def Inv (s : State) : Prop :=
  s.Tiempo_Acumulado < 256 ∧
  (s.TIMSK0 = 1 <<< TOIE0 → relay s = true) ∧
  (s.TIMSK0 = 1 <<< TOIE0 → s.Tiempo_Acumulado = 0 → s.Flag_Stop = 1) ∧
  (s.Flag_Start = 1 → s.Flag_Pause = 0 → s.Tiempo_Acumulado ≠ 0 →
    s.TIMSK0 = 1 <<< TOIE0 ∧ relay s = true)

/-! ## The routines taken statement by statement

A second, finer embedding: every routine as the list of the states after each of its
statements (each register write of a chained assignment is a statement of its own, in
the order C performs them, right to left).  The theorems `ultimo_pasos_*` show that
the last state of each list is the state the routine of the first embedding returns. -/

/-- The last state of a list of successive states, `s` when the list is empty. -/
def ultimo (s : State) : List State → State
  | [] => s
  | t :: l => ultimo t l

/-- A single statement. -/
def paso (f : State → State) : State → List State := fun s => [f s]

/-- Statements and calls in sequence: each starts in the last state of the one
before. -/
def secuencia : List (State → List State) → State → List State
  | [], _ => []
  | p :: ps, s => p s ++ secuencia ps (ultimo s (p s))

/-- Function `Iniciar_Conteo` statement by statement, lines 146 to 153. -/
def pasos_Iniciar_Conteo (tcnt0 : Nat) : State → List State := fun s =>
  if s.Tiempo_Acumulado > 0 then
    secuencia
      [ paso (fun s => { s with TCNT0 := tcnt0 % 65536 }),
        paso (fun s => { s with TCCR0B := (1 <<< CS02) ||| (1 <<< CS00) }),
        paso (fun s => { s with TIMSK0 := (1 <<< TOIE0) }),
        paso Rele_ON ] s
  else []

/-- Function `Parar_Conteo` statement by statement, lines 155 to 158. -/
def pasos_Parar_Conteo : State → List State :=
  secuencia
    [ paso Rele_OFF,
      paso (fun s => { s with TIMSK0 := 0 }),
      paso (fun s => { s with TCCR0B := 0 }) ]

/-- Function `PWM__Beep_Enable` statement by statement, lines 224 to 230. -/
def pasos_PWM__Beep_Enable : State → List State :=
  secuencia
    [ paso (fun s => { s with TCCR0A := (1 <<< COM0B1) ||| (1 <<< WGM01) }),
      paso (fun s => { s with TCCR0B := (1 <<< WGM02) ||| (1 <<< WGM03) ||| (1 <<< CS00) }),
      paso Beep,
      paso (fun s => { s with OCR0B := s.ICR0 / 2 }) ]

/-- Function `PWM__Beep_Disable` statement by statement, line 233: the chained
assignment writes `TCCR0A`, `TIMSK0`, `OCR0B`, `ICR0`, `TCCR0B`, in this order. -/
def pasos_PWM__Beep_Disable : State → List State :=
  secuencia
    [ paso (fun s => { s with TCCR0A := 0 }),
      paso (fun s => { s with TIMSK0 := 0 }),
      paso (fun s => { s with OCR0B := 0 }),
      paso (fun s => { s with ICR0 := 0 }),
      paso (fun s => { s with TCCR0B := 0 }) ]

/-- Function `Enable_Beep` statement by statement, lines 236 to 241. -/
def pasos_Enable_Beep : State → List State :=
  secuencia [ paso Enable_PWM, paso (_delay_ms 250), paso Disable_PWM, paso (_delay_ms 150) ]

/-- Body of the alarm loop statement by statement, lines 187 to 191. -/
def pasos_Activar_Sonido_STOP_body : State → List State :=
  secuencia
    [ pasos_Enable_Beep, pasos_Enable_Beep, pasos_Enable_Beep, pasos_Enable_Beep,
      paso (_delay_ms 250) ]

/-- The alarm loop of line 186 statement by statement. -/
def pasos_Activar_Sonido_STOP_for : Nat → Nat → State → List State
  | 0, _, _ => []
  | fuel + 1, Sound, s =>
    if Sound < 3 then
      pasos_Activar_Sonido_STOP_body s ++
        pasos_Activar_Sonido_STOP_for fuel ((Sound + 1) % 256)
          (ultimo s (pasos_Activar_Sonido_STOP_body s))
    else []

/-- Function `Activar_Sonido_STOP` statement by statement, lines 178 to 194. -/
def pasos_Activar_Sonido_STOP : State → List State :=
  secuencia
    [ paso (fun s => { s with log := s.log ++ [Ev.call_Activar_Sonido_STOP] }),
      pasos_PWM__Beep_Enable,
      pasos_Activar_Sonido_STOP_for 4 0,
      pasos_PWM__Beep_Disable ]

/-- The tone of `Sonido_PULSACION` statement by statement. -/
def pasos_Sonido_PULSACION_tono : State → List State :=
  secuencia
    [ pasos_PWM__Beep_Enable, paso Enable_PWM, paso (_delay_ms 170), paso Disable_PWM,
      paso (_delay_ms 170), pasos_PWM__Beep_Disable ]

/-- Function `Sonido_PULSACION` statement by statement, lines 196 to 222. -/
def pasos_Sonido_PULSACION : State → List State :=
  secuencia
    [ paso (fun s => { s with log := s.log ++ [Ev.call_Sonido_PULSACION] }),
      paso (fun s => { s with Tiempo_Acumulado := (s.Tiempo_Acumulado + 1) % 256 }),
      paso (fun s => { s with TIMSK0 := 0 }),
      fun s =>
        if s.Flag_Start = 1 then
          secuencia
            [ paso (fun s => { s with Flag_Beep := 1 }),
              paso (fun s => { s with Guardar_TCNT0 := s.TCNT0 }),
              pasos_Sonido_PULSACION_tono,
              fun s => pasos_Iniciar_Conteo (s.Guardar_TCNT0 + 340) s,
              paso (fun s => { s with Flag_Beep := 0 }) ] s
        else pasos_Sonido_PULSACION_tono s ]

/-- Arm `case START` statement by statement, lines 82 to 90. -/
def pasos_case_START : State → List State :=
  secuencia
    [ fun s =>
        if s.Flag_Pause = 1 then
          secuencia
            [ fun s => pasos_Iniciar_Conteo s.Guardar_TCNT0 s,
              paso (fun s => { s with Flag_Pause := 0 }) ] s
        else pasos_Iniciar_Conteo Set_1min s,
      paso (fun s => { s with Flag_Start := 1 }),
      pasos_Sonido_PULSACION ]

/-- Arm `case STOP` statement by statement, lines 92 to 96. -/
def pasos_case_STOP : State → List State :=
  secuencia
    [ pasos_Parar_Conteo,
      paso (fun s => { s with Flag_Start := 0 }),
      paso (fun s => { s with Tiempo_Acumulado := 0 }),
      pasos_Activar_Sonido_STOP ]

/-- Arm `case PAUSE` statement by statement, lines 98 to 105. -/
def pasos_case_PAUSE : State → List State := fun s =>
  if s.Flag_Pause = 0 then
    secuencia
      [ pasos_Sonido_PULSACION,
        paso (fun s => { s with Guardar_TCNT0 := s.TCNT0 }),
        pasos_Parar_Conteo,
        paso (fun s => { s with Flag_Pause := 1 }) ] s
  else []

/-- The three add arms statement by statement, lines 107 to 120. -/
def pasos_case_Minuto (n : Nat) : State → List State :=
  secuencia
    [ paso (fun s => { s with Tiempo_Acumulado := (s.Tiempo_Acumulado + n) % 256 }),
      pasos_Sonido_PULSACION ]

/-- The `switch` statement by statement, lines 81 to 121. -/
def pasos_main_switch : State → List State := fun s =>
  match switch_case s.ADC_VALUE with
  | ButtonEvent.START => pasos_case_START s
  | ButtonEvent.STOP => pasos_case_STOP s
  | ButtonEvent.PAUSE => pasos_case_PAUSE s
  | ButtonEvent.ADD_1MIN => pasos_case_Minuto 1 s
  | ButtonEvent.ADD_5MIN => pasos_case_Minuto 5 s
  | ButtonEvent.ADD_10MIN => pasos_case_Minuto 10 s
  | ButtonEvent.NONE => []

/-- The completion check statement by statement, lines 124 to 128. -/
def pasos_main_fin : State → List State := fun s =>
  if s.Tiempo_Acumulado = 0 ∧ s.Flag_Stop = 1 then
    secuencia
      [ pasos_Parar_Conteo,
        paso (fun s => { s with Flag_Start := 0 }),
        paso (fun s => { s with Flag_Stop := 0 }),
        pasos_Activar_Sonido_STOP ] s
  else []

/-- One iteration of the main loop statement by statement, lines 79 to 129. -/
def pasos_main_loop : State → List State :=
  secuencia [ pasos_main_switch, pasos_main_fin ]

/-- A routine `p` started in a state with `P` passes only through states with `I`
and ends in a state with `Q`. -/
def Terna (P I Q : State → Prop) (p : State → List State) : Prop :=
  ∀ s, P s → (∀ t ∈ p s, I t) ∧ Q (ultimo s (p s))

/-- The timer is not in PWM tone mode:  `TCCR0A = 0`. -/
def sin_PWM (s : State) : Prop := s.TCCR0A = 0

/-- The overflow interrupt is disabled:  `TIMSK0 = 0`. -/
def sin_OVF (s : State) : Prop := s.TIMSK0 = 0

/-- The two uses of the timer exclude each other: not in PWM tone mode, or the
overflow interrupt disabled. -/
def Seguro (s : State) : Prop := s.TCCR0A = 0 ∨ s.TIMSK0 = 0

/-- A PAUSED state reached by a PAUSE event from RUNNING: from power-on, the samples
100 (ADD_1MIN), 55 (START) and 80 (PAUSE). -/
def estado_pausado : State := iteraciones [100, 55, 80] estado_inicial

/-! ## The machine with the overflow flag of the timer

The routines above run with no timer overflow served while they execute.  On the
device the timer also overflows while it generates a tone: the comment of lines 44 to
49 of the source counts 300 overflows in 150 ms of PWM at 2 kHz.  With the overflow
interrupt disabled (line 198) such an overflow only leaves the flag `TOV0` of the
timer set, and the routine `ISR(TIM0_OVF_vect)` is entered as soon as line 150 enables
the interrupt again, the hardware clearing the flag.  That is the one place where the
`Flag_Beep` branch of the routine (lines 169 to 171) can execute.  The definitions of
this section are the routines of the source once more, on a machine that carries the
flag; interrupts are enabled from `sei()` in `ADC_Init` on and never disabled. -/

/-- Variables and registers together with the overflow flag `TOV0` of the timer. -/
structure Maquina where
  cpu : State
  TOV0 : Bool
deriving DecidableEq, Repr

/-- A statement that reads and writes variables and registers only. -/
def en_cpu (f : State → State) (m : Maquina) : Maquina := { m with cpu := f m.cpu }

/-- Library routine `_delay_ms(n)` on the machine: while the timer generates PWM
(`TCCR0A` and `TCCR0B` set by `PWM__Beep_Enable`) it overflows during the wait and
leaves `TOV0` set. -/
def _delay_ms_hw (n : Nat) (m : Maquina) : Maquina :=
  { cpu := _delay_ms n m.cpu,
    TOV0 := m.TOV0 || decide (m.cpu.TCCR0A ≠ 0 ∧ m.cpu.TCCR0B ≠ 0 ∧ 0 < n) }

/-- The hardware serves a pending overflow: with `TOV0` set and the overflow
interrupt enabled, `ISR(TIM0_OVF_vect)` runs and the flag is cleared. -/
def servir (m : Maquina) : Maquina :=
  if m.TOV0 = true ∧ m.cpu.TIMSK0 = (1 <<< TOIE0) then
    { cpu := ISR_TIM0_OVF_vect m.cpu, TOV0 := false }
  else m

/-- Function `Iniciar_Conteo` on the machine, lines 146 to 153: a pending overflow is
served right after the write of `TIMSK0` in line 150. -/
def Iniciar_Conteo_hw (tcnt0 : Nat) (m : Maquina) : Maquina :=
  if m.cpu.Tiempo_Acumulado > 0 then
    let m := en_cpu (fun s => { s with TCNT0 := tcnt0 % 65536 }) m
    let m := en_cpu (fun s => { s with TCCR0B := (1 <<< CS02) ||| (1 <<< CS00) }) m
    let m := en_cpu (fun s => { s with TIMSK0 := (1 <<< TOIE0) }) m
    let m := servir m
    en_cpu Rele_ON m
  else m

/-- Function `Parar_Conteo` on the machine, lines 155 to 158. -/
def Parar_Conteo_hw (m : Maquina) : Maquina := en_cpu Parar_Conteo m

/-- Function `Enable_Beep` on the machine, lines 236 to 241. -/
def Enable_Beep_hw (m : Maquina) : Maquina :=
  let m := en_cpu Enable_PWM m
  let m := _delay_ms_hw 250 m
  let m := en_cpu Disable_PWM m
  _delay_ms_hw 150 m

/-- Body of the alarm loop on the machine, lines 187 to 191. -/
def Activar_Sonido_STOP_body_hw (m : Maquina) : Maquina :=
  let m := Enable_Beep_hw m
  let m := Enable_Beep_hw m
  let m := Enable_Beep_hw m
  let m := Enable_Beep_hw m
  _delay_ms_hw 250 m

/-- The alarm loop of line 186 on the machine. -/
def Activar_Sonido_STOP_for_hw : Nat → Nat → Maquina → Maquina
  | 0, _, m => m
  | fuel + 1, Sound, m =>
    if Sound < 3 then
      Activar_Sonido_STOP_for_hw fuel ((Sound + 1) % 256) (Activar_Sonido_STOP_body_hw m)
    else m

/-- Function `Activar_Sonido_STOP` on the machine, lines 178 to 194. -/
def Activar_Sonido_STOP_hw (m : Maquina) : Maquina :=
  let m := en_cpu (fun s => { s with log := s.log ++ [Ev.call_Activar_Sonido_STOP] }) m
  let m := en_cpu PWM__Beep_Enable m
  let m := Activar_Sonido_STOP_for_hw 4 0 m
  en_cpu PWM__Beep_Disable m

/-- The tone of `Sonido_PULSACION` on the machine. -/
def Sonido_PULSACION_tono_hw (m : Maquina) : Maquina :=
  let m := en_cpu PWM__Beep_Enable m
  let m := en_cpu Enable_PWM m
  let m := _delay_ms_hw 170 m
  let m := en_cpu Disable_PWM m
  let m := _delay_ms_hw 170 m
  en_cpu PWM__Beep_Disable m

/-- Function `Sonido_PULSACION` on the machine, lines 196 to 222. -/
def Sonido_PULSACION_hw (m : Maquina) : Maquina :=
  let m := en_cpu (fun s => { s with log := s.log ++ [Ev.call_Sonido_PULSACION] }) m
  let m := en_cpu (fun s => { s with Tiempo_Acumulado := (s.Tiempo_Acumulado + 1) % 256 }) m
  let m := en_cpu (fun s => { s with TIMSK0 := 0 }) m
  if m.cpu.Flag_Start = 1 then
    let m := en_cpu (fun s => { s with Flag_Beep := 1 }) m
    let m := en_cpu (fun s => { s with Guardar_TCNT0 := s.TCNT0 }) m
    let m := Sonido_PULSACION_tono_hw m
    let m := Iniciar_Conteo_hw (m.cpu.Guardar_TCNT0 + 340) m
    en_cpu (fun s => { s with Flag_Beep := 0 }) m
  else
    Sonido_PULSACION_tono_hw m

/-- First part of `case START` on the machine, lines 83 to 88. -/
def case_START_inicio_hw (m : Maquina) : Maquina :=
  let m :=
    if m.cpu.Flag_Pause = 1 then
      let m := Iniciar_Conteo_hw m.cpu.Guardar_TCNT0 m
      en_cpu (fun s => { s with Flag_Pause := 0 }) m
    else
      Iniciar_Conteo_hw Set_1min m
  en_cpu (fun s => { s with Flag_Start := 1 }) m

/-- Arm `case START` on the machine, lines 82 to 90. -/
def case_START_hw (m : Maquina) : Maquina :=
  Sonido_PULSACION_hw (case_START_inicio_hw m)

/-- Arm `case STOP` on the machine, lines 92 to 96. -/
def case_STOP_hw (m : Maquina) : Maquina :=
  let m := Parar_Conteo_hw m
  let m := en_cpu (fun s => { s with Flag_Start := 0, Tiempo_Acumulado := 0 }) m
  Activar_Sonido_STOP_hw m

/-- Arm `case PAUSE` on the machine, lines 98 to 105. -/
def case_PAUSE_hw (m : Maquina) : Maquina :=
  if m.cpu.Flag_Pause = 0 then
    let m := Sonido_PULSACION_hw m
    let m := en_cpu (fun s => { s with Guardar_TCNT0 := s.TCNT0 }) m
    let m := Parar_Conteo_hw m
    en_cpu (fun s => { s with Flag_Pause := 1 }) m
  else m

/-- The three add arms on the machine, lines 107 to 120. -/
def case_Minuto_hw (n : Nat) (m : Maquina) : Maquina :=
  let m := en_cpu (fun s => { s with Tiempo_Acumulado := (s.Tiempo_Acumulado + n) % 256 }) m
  Sonido_PULSACION_hw m

/-- The `switch` statement on the machine, lines 81 to 121. -/
def main_switch_hw (m : Maquina) : Maquina :=
  match switch_case m.cpu.ADC_VALUE with
  | ButtonEvent.START => case_START_hw m
  | ButtonEvent.STOP => case_STOP_hw m
  | ButtonEvent.PAUSE => case_PAUSE_hw m
  | ButtonEvent.ADD_1MIN => case_Minuto_hw 1 m
  | ButtonEvent.ADD_5MIN => case_Minuto_hw 5 m
  | ButtonEvent.ADD_10MIN => case_Minuto_hw 10 m
  | ButtonEvent.NONE => m

/-- The completion check on the machine, lines 124 to 128. -/
def main_fin_hw (m : Maquina) : Maquina :=
  if m.cpu.Tiempo_Acumulado = 0 ∧ m.cpu.Flag_Stop = 1 then
    let m := Parar_Conteo_hw m
    let m := en_cpu (fun s => { s with Flag_Start := 0, Flag_Stop := 0 }) m
    Activar_Sonido_STOP_hw m
  else m

/-- One iteration of `while (1)` on the machine, lines 79 to 129. -/
def main_loop_hw (m : Maquina) : Maquina := main_fin_hw (main_switch_hw m)

/-- One iteration of the main loop on the machine that finds the sample `v` in
`ADC_VALUE`. -/
def iteracion_hw (v : Nat) (m : Maquina) : Maquina := main_loop_hw (en_cpu (ISR_ADC_vect v) m)

/-- A run of iterations on the machine, one per sample of the list. -/
def iteraciones_hw : List Nat → Maquina → Maquina
  | [], m => m
  | v :: vs, m => iteraciones_hw vs (iteracion_hw v m)

/-- The machine at power-on after the initialisation of `main`: no overflow pending. -/
def maquina_inicial : Maquina := { cpu := estado_inicial, TOV0 := false }

/-- The timer overflows while it counts a minute: with the overflow interrupt
enabled the routine `ISR(TIM0_OVF_vect)` runs at once and the flag is cleared. -/
def desborde (m : Maquina) : Maquina := { cpu := ISR_TIM0_OVF_vect m.cpu, TOV0 := false }

/-- Machine states reachable from power-on: main-loop iterations (any sample)
alternate with overflows of the counting timer, which occur only while the overflow
interrupt is enabled. -/
inductive Alcanzable : Maquina → Prop where
  | init : Alcanzable maquina_inicial
  | iter (v : Nat) (m : Maquina) : Alcanzable m → Alcanzable (iteracion_hw v m)
  | ovf (m : Maquina) : Alcanzable m → m.cpu.TIMSK0 = (1 <<< TOIE0) →
      Alcanzable (desborde m)

/-- Samples of `muestras_255` followed by one more press of the 1 minute button. -/
def muestras_256 : List Nat := muestras_255 ++ [100]
/-- The invariant of the main loop on the machine: `Inv` for variables and registers,
and a counter of at most 254 whenever `Flag_Start = 1`. -/
def InvM (m : Maquina) : Prop :=
  Inv m.cpu ∧ (m.cpu.Flag_Start = 1 → m.cpu.Tiempo_Acumulado ≤ 254)

/-! ## Lemmas on the bit operations -/

theorem testBit_setBit8 (r b i : Nat) :
    (setBit8 r b).testBit i = (decide (i < 8) && (r.testBit i || decide (b = i))) := by
  have h : (256 : Nat) = 2 ^ 8 := by norm_num
  simp only [setBit8, h, Nat.testBit_mod_two_pow, Nat.testBit_or, Nat.one_shiftLeft,
    Nat.testBit_two_pow]

theorem testBit_clrBit8 (r b i : Nat) :
    (clrBit8 r b).testBit i = (decide (i < 8) && (r.testBit i && !decide (b = i))) := by
  have h : (256 : Nat) = 2 ^ 8 := by norm_num
  have h16 : (65535 : Nat) = 2 ^ 16 - 1 := by norm_num
  simp only [clrBit8, h, h16, Nat.testBit_mod_two_pow, Nat.testBit_and, Nat.testBit_xor,
    Nat.one_shiftLeft, Nat.testBit_two_pow, Nat.testBit_two_pow_sub_one]
  by_cases h8 : i < 8
  · have : i < 16 := by omega
    by_cases hb : b = i <;> simp [h8, this, hb]
  · simp [h8]

theorem testBit_setBit8_self (r b : Nat) (hb : b < 8) : (setBit8 r b).testBit b = true := by
  simp [testBit_setBit8, hb]

theorem testBit_clrBit8_self (r b : Nat) : (clrBit8 r b).testBit b = false := by
  simp [testBit_clrBit8]

theorem clrBit8_setBit8_clrBit8 (r b : Nat) :
    clrBit8 (setBit8 (clrBit8 r b) b) b = clrBit8 r b := by
  apply Nat.eq_of_testBit_eq
  intro i
  simp only [testBit_clrBit8, testBit_setBit8]
  by_cases h8 : i < 8 <;> by_cases hb : b = i <;> simp [h8, hb]

theorem setBit8_lt (r b : Nat) : setBit8 r b < 256 := Nat.mod_lt _ (by norm_num)

theorem clrBit8_lt (r b : Nat) : clrBit8 r b < 256 := Nat.mod_lt _ (by norm_num)

/-! ## What each routine does to the state -/

theorem Sonido_PULSACION_tono_eq (s : State) :
    Sonido_PULSACION_tono s =
      { s with TCCR0A := 0, TCCR0B := 0, TIMSK0 := 0, ICR0 := 0, OCR0B := 0,
               DDRB := clrBit8 (setBit8 s.DDRB PORTB1) PORTB1,
               log := s.log ++ tono_log } := by
  simp [Sonido_PULSACION_tono, PWM__Beep_Enable, PWM__Beep_Disable, Beep, Enable_PWM, Disable_PWM,
    _delay_ms, tono_log]

theorem Activar_Sonido_STOP_eq (s : State) :
    Activar_Sonido_STOP s =
      { s with TCCR0A := 0, TCCR0B := 0, TIMSK0 := 0, ICR0 := 0, OCR0B := 0,
               DDRB := clrBit8 (setBit8 s.DDRB PORTB1) PORTB1,
               log := s.log ++ alarm_log } := by
  simp [Activar_Sonido_STOP, Activar_Sonido_STOP_for, Activar_Sonido_STOP_body, Enable_Beep,
    PWM__Beep_Enable, PWM__Beep_Disable, Beep, Enable_PWM, Disable_PWM,
    _delay_ms, alarm_log, body_log, beep_log, clrBit8_setBit8_clrBit8]

theorem count_alarm_alarm_log : alarm_log.count Ev.call_Activar_Sonido_STOP = 1 := by decide

theorem count_chirp_alarm_log : alarm_log.count Ev.call_Sonido_PULSACION = 0 := by decide

theorem count_alarm_tono_log : tono_log.count Ev.call_Activar_Sonido_STOP = 0 := by decide

theorem count_chirp_tono_log : tono_log.count Ev.call_Sonido_PULSACION = 0 := by decide

theorem Parar_Conteo_eq (s : State) :
    Parar_Conteo s = { s with PORTB := clrBit8 s.PORTB PORTB2, TCCR0B := 0, TIMSK0 := 0 } := by
  simp [Parar_Conteo, Rele_OFF]

theorem Iniciar_Conteo_pos (tcnt0 : Nat) (s : State) (h : 0 < s.Tiempo_Acumulado) :
    Iniciar_Conteo tcnt0 s =
      { s with TCNT0 := tcnt0 % 65536, TCCR0B := 5, TIMSK0 := 1,
               PORTB := setBit8 s.PORTB PORTB2 } := by
  simp [Iniciar_Conteo, Rele_ON, h, CS02, CS00, TOIE0]

theorem Iniciar_Conteo_zero (tcnt0 : Nat) (s : State) (h : s.Tiempo_Acumulado = 0) :
    Iniciar_Conteo tcnt0 s = s := by
  simp [Iniciar_Conteo, h]

theorem iteracion_eq (v : Nat) (s : State) (hv : v < 256) :
    iteracion v s = main_loop { s with ADC_VALUE := v } := by
  simp [iteracion, ISR_ADC_vect, Nat.mod_eq_of_lt hv]

/-! ## The switch -/

theorem switch_case_eq (v : Nat) :
    switch_case v =
      if 51 ≤ v ∧ v ≤ 61 then ButtonEvent.START
      else if 89 ≤ v ∧ v ≤ 98 then ButtonEvent.STOP
      else if 74 ≤ v ∧ v ≤ 84 then ButtonEvent.PAUSE
      else if 99 ≤ v ∧ v ≤ 107 then ButtonEvent.ADD_1MIN
      else if 108 ≤ v ∧ v ≤ 118 then ButtonEvent.ADD_5MIN
      else if 130 ≤ v ∧ v ≤ 140 then ButtonEvent.ADD_10MIN
      else ButtonEvent.NONE := by
  simp only [switch_case, case_labels, List.find?, START, STOP, PAUSE, _1_Minuto, _5_Minuto,
    _10_Minuto]
  split_ifs <;> simp only [decide_eq_true, decide_eq_false, *] <;> simp

/-- Claim C1.  For every sample `s` (in particular every `s` in 0..255) the `switch`
on `ADC_VALUE` selects the START arm iff 51 ≤ s ≤ 61, PAUSE iff 74 ≤ s ≤ 84, STOP iff
89 ≤ s ≤ 98, ADD_1MIN iff 99 ≤ s ≤ 107, ADD_5MIN iff 108 ≤ s ≤ 118, ADD_10MIN iff
130 ≤ s ≤ 140, and no arm for every other `s`; the six ranges of the `case` labels
are pairwise disjoint and each holds between 9 and 11 values. -/
theorem switch_case_bands (s : Nat) :
    (switch_case s = ButtonEvent.START ↔ 51 ≤ s ∧ s ≤ 61) ∧
    (switch_case s = ButtonEvent.PAUSE ↔ 74 ≤ s ∧ s ≤ 84) ∧
    (switch_case s = ButtonEvent.STOP ↔ 89 ≤ s ∧ s ≤ 98) ∧
    (switch_case s = ButtonEvent.ADD_1MIN ↔ 99 ≤ s ∧ s ≤ 107) ∧
    (switch_case s = ButtonEvent.ADD_5MIN ↔ 108 ≤ s ∧ s ≤ 118) ∧
    (switch_case s = ButtonEvent.ADD_10MIN ↔ 130 ≤ s ∧ s ≤ 140) ∧
    (switch_case s = ButtonEvent.NONE ↔
      ¬ (51 ≤ s ∧ s ≤ 61) ∧ ¬ (74 ≤ s ∧ s ≤ 84) ∧ ¬ (89 ≤ s ∧ s ≤ 98) ∧
      ¬ (99 ≤ s ∧ s ≤ 107) ∧ ¬ (108 ≤ s ∧ s ≤ 118) ∧ ¬ (130 ≤ s ∧ s ≤ 140)) ∧
    case_labels.map (fun c => (c.2.1, c.2.2)) =
      [(51, 61), (89, 98), (74, 84), (99, 107), (108, 118), (130, 140)] ∧
    case_labels.Pairwise (fun a b => a.2.2 < b.2.1 ∨ b.2.2 < a.2.1) ∧
    case_labels.all (fun c => decide (9 ≤ c.2.2 + 1 - c.2.1 ∧ c.2.2 + 1 - c.2.1 ≤ 11)) = true := by
  refine ⟨?_, ?_, ?_, ?_, ?_, ?_, ?_, by decide, by decide, by decide⟩ <;>
    (rw [switch_case_eq]; split_ifs <;> simp <;> omega)

theorem Sonido_PULSACION_running (s : State) (hS : s.Flag_Start = 1)
    (hT : (s.Tiempo_Acumulado + 1) % 256 ≠ 0) :
    Sonido_PULSACION s =
      { s with Tiempo_Acumulado := (s.Tiempo_Acumulado + 1) % 256, Flag_Beep := 0,
               Guardar_TCNT0 := s.TCNT0, TCNT0 := (s.TCNT0 + 340) % 65536,
               TCCR0A := 0, TCCR0B := 5, TIMSK0 := 1, ICR0 := 0, OCR0B := 0,
               PORTB := setBit8 s.PORTB PORTB2,
               DDRB := clrBit8 (setBit8 s.DDRB PORTB1) PORTB1,
               log := s.log ++ Ev.call_Sonido_PULSACION :: tono_log } := by
  have h : 0 < (s.Tiempo_Acumulado + 1) % 256 := Nat.pos_of_ne_zero hT
  simp [Sonido_PULSACION, hS, Sonido_PULSACION_tono_eq, Iniciar_Conteo, Rele_ON, h, CS02, CS00,
    TOIE0]

theorem Sonido_PULSACION_wrap (s : State) (hS : s.Flag_Start = 1)
    (hT : (s.Tiempo_Acumulado + 1) % 256 = 0) :
    Sonido_PULSACION s =
      { s with Tiempo_Acumulado := 0, Flag_Beep := 0, Guardar_TCNT0 := s.TCNT0,
               TCCR0A := 0, TCCR0B := 0, TIMSK0 := 0, ICR0 := 0, OCR0B := 0,
               DDRB := clrBit8 (setBit8 s.DDRB PORTB1) PORTB1,
               log := s.log ++ Ev.call_Sonido_PULSACION :: tono_log } := by
  simp [Sonido_PULSACION, hS, Sonido_PULSACION_tono_eq, Iniciar_Conteo, hT]

theorem Sonido_PULSACION_idle (s : State) (hS : s.Flag_Start ≠ 1) :
    Sonido_PULSACION s =
      { s with Tiempo_Acumulado := (s.Tiempo_Acumulado + 1) % 256,
               TCCR0A := 0, TCCR0B := 0, TIMSK0 := 0, ICR0 := 0, OCR0B := 0,
               DDRB := clrBit8 (setBit8 s.DDRB PORTB1) PORTB1,
               log := s.log ++ Ev.call_Sonido_PULSACION :: tono_log } := by
  simp [Sonido_PULSACION, hS, Sonido_PULSACION_tono_eq]

theorem Sonido_PULSACION_Tiempo (s : State) :
    (Sonido_PULSACION s).Tiempo_Acumulado = (s.Tiempo_Acumulado + 1) % 256 := by
  by_cases hS : s.Flag_Start = 1
  · by_cases hT : (s.Tiempo_Acumulado + 1) % 256 = 0
    · rw [Sonido_PULSACION_wrap s hS hT]; simp [hT]
    · rw [Sonido_PULSACION_running s hS hT]
  · rw [Sonido_PULSACION_idle s hS]

theorem main_fin_Tiempo (s : State) : (main_fin s).Tiempo_Acumulado = s.Tiempo_Acumulado := by
  unfold main_fin
  split_ifs <;> simp [Activar_Sonido_STOP_eq, Parar_Conteo_eq]

theorem main_fin_idle (s : State) (h : ¬ (s.Tiempo_Acumulado = 0 ∧ s.Flag_Stop = 1)) :
    main_fin s = s := by
  simp only [main_fin, h, if_false]

theorem main_fin_done (s : State) (h : s.Tiempo_Acumulado = 0 ∧ s.Flag_Stop = 1) :
    main_fin s =
      { s with Flag_Start := 0, Flag_Stop := 0, PORTB := clrBit8 s.PORTB PORTB2,
               TCCR0A := 0, TCCR0B := 0, TIMSK0 := 0, ICR0 := 0, OCR0B := 0,
               DDRB := clrBit8 (setBit8 s.DDRB PORTB1) PORTB1,
               log := s.log ++ alarm_log } := by
  simp [main_fin, h, Activar_Sonido_STOP_eq, Parar_Conteo_eq]

theorem case_STOP_eq (s : State) :
    case_STOP s =
      { s with Tiempo_Acumulado := 0, Flag_Start := 0, PORTB := clrBit8 s.PORTB PORTB2,
               TCCR0A := 0, TCCR0B := 0, TIMSK0 := 0, ICR0 := 0, OCR0B := 0,
               DDRB := clrBit8 (setBit8 s.DDRB PORTB1) PORTB1,
               log := s.log ++ alarm_log } := by
  simp [case_STOP, Activar_Sonido_STOP_eq, Parar_Conteo_eq]

/-- Claim C3.  Natural expiry: for every state with `Tiempo_Acumulado = 1` (in
particular every RUNNING one, `Flag_Start = 1`, relay on, timer counting) one firing
of the timer-overflow routine sets `Flag_Stop = 1` and `Tiempo_Acumulado = 0`; the
next main-loop iteration, with a sample `v1` outside all bands, clears the relay bit,
stops the timer, clears `Flag_Stop` and `Flag_Start` and runs the alarm exactly once
(the log grows by exactly one alarm); a further iteration with a sample `v2` outside
all bands changes nothing and plays no alarm. -/
theorem natural_expiry (s : State) (v1 v2 : Nat)
    (hT : s.Tiempo_Acumulado = 1)
    (h1 : v1 < 256) (hn1 : switch_case v1 = ButtonEvent.NONE)
    (h2 : v2 < 256) (hn2 : switch_case v2 = ButtonEvent.NONE) :
    (ISR_TIM0_OVF_vect s).Flag_Stop = 1 ∧
    (ISR_TIM0_OVF_vect s).Tiempo_Acumulado = 0 ∧
    relay (iteracion v1 (ISR_TIM0_OVF_vect s)) = false ∧
    stopped (iteracion v1 (ISR_TIM0_OVF_vect s)) ∧
    (iteracion v1 (ISR_TIM0_OVF_vect s)).Flag_Stop = 0 ∧
    (iteracion v1 (ISR_TIM0_OVF_vect s)).Flag_Start = 0 ∧
    (iteracion v1 (ISR_TIM0_OVF_vect s)).log = s.log ++ alarm_log ∧
    alarms (iteracion v1 (ISR_TIM0_OVF_vect s)) = alarms s + 1 ∧
    iteracion v2 (iteracion v1 (ISR_TIM0_OVF_vect s)) =
      { iteracion v1 (ISR_TIM0_OVF_vect s) with ADC_VALUE := v2 } ∧
    alarms (iteracion v2 (iteracion v1 (ISR_TIM0_OVF_vect s))) =
      alarms (iteracion v1 (ISR_TIM0_OVF_vect s)) := by
  have e1 : ISR_TIM0_OVF_vect s = { s with Tiempo_Acumulado := 0, Flag_Stop := 1 } := by
    simp [ISR_TIM0_OVF_vect, hT]
  have e2 : iteracion v1 (ISR_TIM0_OVF_vect s) =
      { s with Tiempo_Acumulado := 0, ADC_VALUE := v1, Flag_Start := 0, Flag_Stop := 0,
               PORTB := clrBit8 s.PORTB PORTB2,
               TCCR0A := 0, TCCR0B := 0, TIMSK0 := 0, ICR0 := 0, OCR0B := 0,
               DDRB := clrBit8 (setBit8 s.DDRB PORTB1) PORTB1,
               log := s.log ++ alarm_log } := by
    rw [iteracion_eq _ _ h1, e1]
    simp only [main_loop, main_switch, hn1]
    rw [main_fin_done _ ⟨rfl, rfl⟩]
  have e3 : iteracion v2 (iteracion v1 (ISR_TIM0_OVF_vect s)) =
      { iteracion v1 (ISR_TIM0_OVF_vect s) with ADC_VALUE := v2 } := by
    rw [iteracion_eq _ _ h2]
    simp only [main_loop, main_switch, hn2]
    rw [main_fin_idle]
    rw [e2]; simp
  refine ⟨by rw [e1], by rw [e1], ?_, ?_, by rw [e2], by rw [e2], by rw [e2], ?_, e3, ?_⟩
  · rw [e2]; simp [relay, testBit_clrBit8_self]
  · rw [e2]; simp [stopped]
  · rw [e2]; simp [alarms, List.count_append, count_alarm_alarm_log]
  · rw [e3]; simp [alarms]

/-- Witness of `natural_expiry`: a RUNNING state with one minute left, samples 0 and
200. -/
theorem natural_expiry_witness :
    (estado_RUNNING 1 30000).Tiempo_Acumulado = 1 ∧
    (estado_RUNNING 1 30000).Flag_Start = 1 ∧
    relay (estado_RUNNING 1 30000) = true ∧
    counting (estado_RUNNING 1 30000) ∧
    relay (iteracion 0 (ISR_TIM0_OVF_vect (estado_RUNNING 1 30000))) = false ∧
    alarms (iteracion 0 (ISR_TIM0_OVF_vect (estado_RUNNING 1 30000))) =
      alarms (estado_RUNNING 1 30000) + 1 ∧
    alarms (iteracion 200 (iteracion 0 (ISR_TIM0_OVF_vect (estado_RUNNING 1 30000)))) =
      alarms (iteracion 0 (ISR_TIM0_OVF_vect (estado_RUNNING 1 30000))) :=
  have h := natural_expiry (estado_RUNNING 1 30000) 0 200 (by decide) (by decide) (by decide)
    (by decide) (by decide)
  ⟨by decide, by decide, by decide, by decide, h.2.2.1, h.2.2.2.2.2.2.2.1,
    h.2.2.2.2.2.2.2.2.2⟩

set_option maxRecDepth 100000 in
/-- Claim C2 (the code departs from it).  The state is the one right after natural
expiry (`Tiempo_Acumulado = 0`, `Flag_Stop = 1`); an iteration with the STOP sample
90 leaves the counter at 0, `Flag_Start = 0`, the timer stopped and the relay off,
but the alarm routine runs twice: once in `case STOP` and once more in the completion
check of the same iteration. -/
theorem stop_after_expiry_two_alarms :
    estado_expirado.Tiempo_Acumulado = 0 ∧ estado_expirado.Flag_Stop = 1 ∧
    (iteracion 90 estado_expirado).Tiempo_Acumulado = 0 ∧
    (iteracion 90 estado_expirado).Flag_Start = 0 ∧
    stopped (iteracion 90 estado_expirado) ∧
    relay (iteracion 90 estado_expirado) = false ∧
    alarms (iteracion 90 estado_expirado) = alarms estado_expirado + 2 ∧
    (iteracion 90 estado_expirado).log = estado_expirado.log ++ alarm_log ++ alarm_log := by
  decide

theorem Reachable_iteraciones (vs : List Nat) (s : State) (h : Reachable s) :
    Reachable (iteraciones vs s) := by
  induction vs generalizing s with
  | nil => exact h
  | cons v vs ih => exact ih _ (Reachable.iter v s h)

theorem main_switch_Minuto (s : State) (n : Nat)
    (h : (99 ≤ s.ADC_VALUE ∧ s.ADC_VALUE ≤ 107 ∧ n = 1) ∨
         (108 ≤ s.ADC_VALUE ∧ s.ADC_VALUE ≤ 118 ∧ n = 5) ∨
         (130 ≤ s.ADC_VALUE ∧ s.ADC_VALUE ≤ 140 ∧ n = 10)) :
    main_switch s = case_Minuto n s := by
  rcases h with ⟨h1, h2, rfl⟩ | ⟨h1, h2, rfl⟩ | ⟨h1, h2, rfl⟩
  · have e : switch_case s.ADC_VALUE = ButtonEvent.ADD_1MIN := by
      rw [switch_case_eq]; split_ifs <;> first | rfl | omega
    simp only [main_switch, e]
  · have e : switch_case s.ADC_VALUE = ButtonEvent.ADD_5MIN := by
      rw [switch_case_eq]; split_ifs <;> first | rfl | omega
    simp only [main_switch, e]
  · have e : switch_case s.ADC_VALUE = ButtonEvent.ADD_10MIN := by
      rw [switch_case_eq]; split_ifs <;> first | rfl | omega
    simp only [main_switch, e]

theorem case_Minuto_Tiempo (n : Nat) (s : State) :
    (case_Minuto n s).Tiempo_Acumulado = (s.Tiempo_Acumulado + n + 1) % 256 := by
  simp only [case_Minuto, Sonido_PULSACION_Tiempo]
  omega

theorem iteracion_Minuto_Tiempo (s : State) (v n : Nat)
    (h : (99 ≤ v ∧ v ≤ 107 ∧ n = 1) ∨ (108 ≤ v ∧ v ≤ 118 ∧ n = 5) ∨
         (130 ≤ v ∧ v ≤ 140 ∧ n = 10)) :
    (iteracion v s).Tiempo_Acumulado = (s.Tiempo_Acumulado + n + 1) % 256 := by
  have hv : v < 256 := by omega
  rw [iteracion_eq v s hv, main_loop, main_fin_Tiempo, main_switch_Minuto _ n h,
    case_Minuto_Tiempo]

theorem iteraciones_1_Minuto_Tiempo (vs : List Nat) (h : ∀ v ∈ vs, 99 ≤ v ∧ v ≤ 107)
    (s : State) (hs : s.Tiempo_Acumulado < 256) :
    (iteraciones vs s).Tiempo_Acumulado = (s.Tiempo_Acumulado + 2 * vs.length) % 256 := by
  induction vs generalizing s with
  | nil => simp [iteraciones, Nat.mod_eq_of_lt hs]
  | cons v vs ih =>
    have hv := h v (List.mem_cons_self v vs)
    have e := iteracion_Minuto_Tiempo s v 1 (Or.inl ⟨hv.1, hv.2, rfl⟩)
    have hlt : (iteracion v s).Tiempo_Acumulado < 256 := by
      rw [e]; exact Nat.mod_lt _ (by norm_num)
    rw [iteraciones, ih (fun w hw => h w (List.mem_cons_of_mem v hw)) _ hlt, e]
    simp only [List.length_cons]
    omega

/-- Claim C6, counterexample.  From the power-on state a single iteration with the
ADD_1MIN sample 100 leaves `Tiempo_Acumulado = 2`, not 1: the claim fails at N = 1. -/
theorem add_1min_once_not_one :
    (iteraciones [100] estado_inicial).Tiempo_Acumulado = 2 ∧
    ¬ ((iteraciones [100] estado_inicial).Tiempo_Acumulado = [100].length) := by
  decide

/-- Claim C6, as amended.  Starting from the power-on state, N consecutive main-loop
iterations whose samples are in the ADD_1MIN band (no interrupt in between) leave
`Tiempo_Acumulado = 2 * N mod 256`: each iteration adds one minute in the `case` arm
and one more in `Sonido_PULSACION`. -/
theorem add_1min_repeated (vs : List Nat) (h : ∀ v ∈ vs, 99 ≤ v ∧ v ≤ 107) :
    (iteraciones vs estado_inicial).Tiempo_Acumulado = (2 * vs.length) % 256 := by
  have e := iteraciones_1_Minuto_Tiempo vs h estado_inicial (by decide)
  have h0 : estado_inicial.Tiempo_Acumulado = 0 := by decide
  rw [e, h0, Nat.zero_add]

/-- Witness of `add_1min_repeated`: three presses give 6, one press gives 2. -/
theorem add_1min_repeated_witness :
    (iteraciones [100, 99, 107] estado_inicial).Tiempo_Acumulado = 6 ∧
    (iteraciones [100] estado_inicial).Tiempo_Acumulado = 2 :=
  ⟨add_1min_repeated [100, 99, 107] (by decide), add_1min_repeated [100] (by decide)⟩

/-- Claim C7, counterexample.  From the power-on state an iteration with the ADD_5MIN
sample 110 adds 6, one with the ADD_10MIN sample 135 adds 11, one with the ADD_1MIN
sample 100 adds 2. -/
theorem add_minutes_not_5_10_1 :
    ¬ ((iteracion 110 estado_inicial).Tiempo_Acumulado =
        estado_inicial.Tiempo_Acumulado + 5) ∧
    ¬ ((iteracion 135 estado_inicial).Tiempo_Acumulado =
        estado_inicial.Tiempo_Acumulado + 10) ∧
    ¬ ((iteracion 100 estado_inicial).Tiempo_Acumulado =
        estado_inicial.Tiempo_Acumulado + 1) ∧
    (iteracion 110 estado_inicial).Tiempo_Acumulado = 6 ∧
    (iteracion 135 estado_inicial).Tiempo_Acumulado = 11 ∧
    (iteracion 100 estado_inicial).Tiempo_Acumulado = 2 := by
  decide

/-- Claim C7, as amended.  For every state, with no timer-overflow interrupt during
the iteration, a main-loop iteration whose sample is in the ADD_1MIN, ADD_5MIN or
ADD_10MIN band (n = 1, 5, 10) changes `Tiempo_Acumulado` to
`(Tiempo_Acumulado + n + 1) mod 256`, that is by 2, 6 and 11 modulo 256. -/
theorem add_minutes_plus_chirp (s : State) (v n : Nat)
    (h : (99 ≤ v ∧ v ≤ 107 ∧ n = 1) ∨ (108 ≤ v ∧ v ≤ 118 ∧ n = 5) ∨
         (130 ≤ v ∧ v ≤ 140 ∧ n = 10)) :
    (iteracion v s).Tiempo_Acumulado = (s.Tiempo_Acumulado + n + 1) % 256 :=
  iteracion_Minuto_Tiempo s v n h

/-- Witness of `add_minutes_plus_chirp`: a RUNNING state with 3 minutes and sample 110
ends with 9 minutes, a state with 250 minutes and sample 135 wraps to 5. -/
theorem add_minutes_plus_chirp_witness :
    (iteracion 110 (estado_RUNNING 3 30000)).Tiempo_Acumulado = 9 ∧
    (iteracion 135 (estado_RUNNING 250 30000)).Tiempo_Acumulado = 5 :=
  ⟨add_minutes_plus_chirp (estado_RUNNING 3 30000) 110 5 (by decide),
   add_minutes_plus_chirp (estado_RUNNING 250 30000) 135 10 (by decide)⟩

theorem main_switch_PAUSE (s : State) (h : 74 ≤ s.ADC_VALUE ∧ s.ADC_VALUE ≤ 84) :
    main_switch s = case_PAUSE s := by
  have e : switch_case s.ADC_VALUE = ButtonEvent.PAUSE := by
    rw [switch_case_eq]; split_ifs <;> first | rfl | omega
  simp only [main_switch, e]

theorem main_switch_START (s : State) (h : 51 ≤ s.ADC_VALUE ∧ s.ADC_VALUE ≤ 61) :
    main_switch s = case_START s := by
  have e : switch_case s.ADC_VALUE = ButtonEvent.START := by
    rw [switch_case_eq, if_pos h]
  simp only [main_switch, e]

theorem main_switch_STOP (s : State) (h : 89 ≤ s.ADC_VALUE ∧ s.ADC_VALUE ≤ 98) :
    main_switch s = case_STOP s := by
  have e : switch_case s.ADC_VALUE = ButtonEvent.STOP := by
    rw [switch_case_eq]; split_ifs <;> first | rfl | omega
  simp only [main_switch, e]

theorem case_PAUSE_running (s : State) (hP : s.Flag_Pause = 0) (hS : s.Flag_Start = 1)
    (hT : (s.Tiempo_Acumulado + 1) % 256 ≠ 0) :
    case_PAUSE s =
      { s with Tiempo_Acumulado := (s.Tiempo_Acumulado + 1) % 256, Flag_Beep := 0,
               Flag_Pause := 1,
               Guardar_TCNT0 := (s.TCNT0 + 340) % 65536, TCNT0 := (s.TCNT0 + 340) % 65536,
               TCCR0A := 0, TCCR0B := 0, TIMSK0 := 0, ICR0 := 0, OCR0B := 0,
               PORTB := clrBit8 (setBit8 s.PORTB PORTB2) PORTB2,
               DDRB := clrBit8 (setBit8 s.DDRB PORTB1) PORTB1,
               log := s.log ++ Ev.call_Sonido_PULSACION :: tono_log } := by
  simp [case_PAUSE, hP, Sonido_PULSACION_running s hS hT, Parar_Conteo_eq]

theorem Sonido_PULSACION_chirps (s : State) :
    chirps (Sonido_PULSACION s) = chirps s + 1 := by
  by_cases hS : s.Flag_Start = 1
  · by_cases hT : (s.Tiempo_Acumulado + 1) % 256 = 0
    · rw [Sonido_PULSACION_wrap s hS hT]
      simp [chirps, List.count_append, List.count_cons, count_chirp_tono_log]
    · rw [Sonido_PULSACION_running s hS hT]
      simp [chirps, List.count_append, List.count_cons, count_chirp_tono_log]
  · rw [Sonido_PULSACION_idle s hS]
    simp [chirps, List.count_append, List.count_cons, count_chirp_tono_log]

theorem main_fin_Flag_Pause (s : State) : (main_fin s).Flag_Pause = s.Flag_Pause := by
  unfold main_fin
  split_ifs <;> simp [Activar_Sonido_STOP_eq, Parar_Conteo_eq]

theorem main_fin_stopped (s : State) (h : stopped s) : stopped (main_fin s) := by
  unfold main_fin
  split_ifs
  · simp [Activar_Sonido_STOP_eq, Parar_Conteo_eq, stopped]
  · exact h

theorem main_fin_relay_false (s : State) (h : relay s = false) :
    relay (main_fin s) = false := by
  unfold main_fin
  split_ifs
  · simp [Activar_Sonido_STOP_eq, Parar_Conteo_eq, relay, testBit_clrBit8_self]
  · exact h

theorem main_fin_chirps (s : State) : chirps (main_fin s) = chirps s := by
  unfold main_fin
  split_ifs
  · simp [Activar_Sonido_STOP_eq, Parar_Conteo_eq, chirps, List.count_append,
      count_chirp_alarm_log]
  · rfl

theorem case_PAUSE_effective (s : State) (hP : s.Flag_Pause = 0) :
    case_PAUSE s =
      { Sonido_PULSACION s with
          Guardar_TCNT0 := (Sonido_PULSACION s).TCNT0,
          PORTB := clrBit8 (Sonido_PULSACION s).PORTB PORTB2,
          TCCR0B := 0, TIMSK0 := 0, Flag_Pause := 1 } := by
  simp [case_PAUSE, hP, Parar_Conteo_eq]

/-- Claim C9, counterexample.  In the power-on state the engine is not RUNNING
(`Flag_Start = 0`) and not paused; an iteration with the PAUSE sample 80 nevertheless
plays a chirp, adds a minute and sets `Flag_Pause = 1`. -/
theorem pause_when_idle_has_effect :
    estado_inicial.Flag_Start = 0 ∧ estado_inicial.Flag_Pause = 0 ∧
    switch_case 80 = ButtonEvent.PAUSE ∧
    ¬ ((iteracion 80 estado_inicial).Tiempo_Acumulado = estado_inicial.Tiempo_Acumulado) ∧
    ¬ ((iteracion 80 estado_inicial).Flag_Pause = estado_inicial.Flag_Pause) ∧
    chirps (iteracion 80 estado_inicial) = chirps estado_inicial + 1 := by
  decide

/-- Claim C9, as amended.  The guard of `case PAUSE` is `Flag_Pause == 0` alone.  For
every state with `Flag_Pause` not 0 in which the completion condition
(`Tiempo_Acumulado = 0` and `Flag_Stop = 1`) does not hold, a main-loop iteration
whose sample is in the PAUSE band leaves the whole state unchanged (counter, flags,
`Guardar_TCNT0`, relay, timer registers, log: no chirp).  For every state with
`Flag_Pause = 0`, RUNNING or not, it stops the timer, clears the relay bit, sets
`Flag_Pause = 1` and plays exactly one chirp. -/
theorem pause_effect (s : State) (v : Nat) (hv : 74 ≤ v ∧ v ≤ 84) :
    (s.Flag_Pause ≠ 0 → ¬ (s.Tiempo_Acumulado = 0 ∧ s.Flag_Stop = 1) →
      iteracion v s = { s with ADC_VALUE := v }) ∧
    (s.Flag_Pause = 0 →
      stopped (iteracion v s) ∧ relay (iteracion v s) = false ∧
      (iteracion v s).Flag_Pause = 1 ∧ chirps (iteracion v s) = chirps s + 1) := by
  have hlt : v < 256 := by omega
  rw [iteracion_eq v s hlt, main_loop, main_switch_PAUSE { s with ADC_VALUE := v } hv]
  constructor
  · intro hP hF
    have e : case_PAUSE { s with ADC_VALUE := v } = { s with ADC_VALUE := v } := by
      simp [case_PAUSE, hP]
    rw [e]
    exact main_fin_idle _ hF
  · intro hP
    have e := case_PAUSE_effective { s with ADC_VALUE := v } hP
    refine ⟨?_, ?_, ?_, ?_⟩
    · apply main_fin_stopped
      rw [e]; simp [stopped]
    · apply main_fin_relay_false
      rw [e]; simp [relay, testBit_clrBit8_self]
    · rw [main_fin_Flag_Pause, e]
    · rw [main_fin_chirps, e]
      have h := Sonido_PULSACION_chirps { s with ADC_VALUE := v }
      simpa [chirps] using h

/-- Witness of `pause_effect`: a paused state (sample 80 again changes nothing) and a
RUNNING state (sample 80 pauses it with one chirp). -/
theorem pause_effect_witness :
    iteracion 80 (iteracion 80 (estado_RUNNING 5 10000)) =
      { iteracion 80 (estado_RUNNING 5 10000) with ADC_VALUE := 80 } ∧
    (stopped (iteracion 80 (estado_RUNNING 5 10000)) ∧
      relay (iteracion 80 (estado_RUNNING 5 10000)) = false ∧
      (iteracion 80 (estado_RUNNING 5 10000)).Flag_Pause = 1 ∧
      chirps (iteracion 80 (estado_RUNNING 5 10000)) = chirps (estado_RUNNING 5 10000) + 1) :=
  ⟨(pause_effect (iteracion 80 (estado_RUNNING 5 10000)) 80 (by decide)).1 (by decide)
      (by decide),
   (pause_effect (estado_RUNNING 5 10000) 80 (by decide)).2 (by decide)⟩

/-- Claim C10, counterexample.  (a) Called while RUNNING with `Tiempo_Acumulado = 255`,
`Sonido_PULSACION` wraps the counter to 0 and leaves the timer stopped: the countdown
is not restarted.  (b) Called while RUNNING with timer count 65535, it restarts the
countdown with `TCNT0 = 339`, which is not 65535 + 340. -/
theorem chirp_no_restart_or_wrapped_phase :
    (estado_RUNNING 255 1000).Flag_Start = 1 ∧
    stopped (Sonido_PULSACION (estado_RUNNING 255 1000)) ∧
    ¬ counting (Sonido_PULSACION (estado_RUNNING 255 1000)) ∧
    (estado_RUNNING 5 65535).Flag_Start = 1 ∧
    (Sonido_PULSACION (estado_RUNNING 5 65535)).TCNT0 = 339 ∧
    ¬ ((Sonido_PULSACION (estado_RUNNING 5 65535)).TCNT0 =
        (estado_RUNNING 5 65535).TCNT0 + 340) := by
  decide

/-- Claim C10, as amended.  For every call of `Sonido_PULSACION` made while RUNNING
(`Flag_Start = 1`) with fewer than 255 minutes on the counter and timer count `p` at
entry, the routine saves `p` in `Guardar_TCNT0` and restarts the countdown (prescaler
1024, overflow interrupt enabled, relay on) with `TCNT0 = (p + 340) mod 65536`; when
`Flag_Start` is not 1 the timer is left stopped and `Guardar_TCNT0` is unchanged. -/
theorem chirp_compensation (s : State) :
    (s.Flag_Start = 1 → s.Tiempo_Acumulado < 255 →
      (Sonido_PULSACION s).Guardar_TCNT0 = s.TCNT0 ∧
      (Sonido_PULSACION s).TCNT0 = (s.TCNT0 + 340) % 65536 ∧
      counting (Sonido_PULSACION s) ∧
      relay (Sonido_PULSACION s) = true) ∧
    (s.Flag_Start ≠ 1 →
      stopped (Sonido_PULSACION s) ∧
      (Sonido_PULSACION s).Guardar_TCNT0 = s.Guardar_TCNT0) := by
  constructor
  · intro hS hT
    have h : (s.Tiempo_Acumulado + 1) % 256 ≠ 0 := by omega
    rw [Sonido_PULSACION_running s hS h]
    simp [counting, relay, CS02, CS00, TOIE0, testBit_setBit8_self, PORTB2]
  · intro hS
    rw [Sonido_PULSACION_idle s hS]
    simp [stopped]

/-- Witness of `chirp_compensation`: a RUNNING state with 5 minutes and timer count
10000 resumes at 10340; the power-on state stays stopped. -/
theorem chirp_compensation_witness :
    ((Sonido_PULSACION (estado_RUNNING 5 10000)).Guardar_TCNT0 = 10000 ∧
      (Sonido_PULSACION (estado_RUNNING 5 10000)).TCNT0 = 10340 ∧
      counting (Sonido_PULSACION (estado_RUNNING 5 10000)) ∧
      relay (Sonido_PULSACION (estado_RUNNING 5 10000)) = true) ∧
    (stopped (Sonido_PULSACION estado_inicial) ∧
      (Sonido_PULSACION estado_inicial).Guardar_TCNT0 = estado_inicial.Guardar_TCNT0) :=
  ⟨(chirp_compensation (estado_RUNNING 5 10000)).1 (by decide) (by decide),
   (chirp_compensation estado_inicial).2 (by decide)⟩

/-! ## The invariant of the main loop -/

theorem Inv_Sonido_PULSACION (s : State) : Inv (Sonido_PULSACION s) := by
  by_cases hS : s.Flag_Start = 1
  · by_cases hT : (s.Tiempo_Acumulado + 1) % 256 = 0
    · rw [Sonido_PULSACION_wrap s hS hT]
      simp [Inv, TOIE0]
    · rw [Sonido_PULSACION_running s hS hT]
      have hlt : (s.Tiempo_Acumulado + 1) % 256 < 256 := Nat.mod_lt _ (by norm_num)
      simp [Inv, TOIE0, relay, testBit_setBit8_self, PORTB2, hT, hlt]
  · rw [Sonido_PULSACION_idle s hS]
    have hlt : (s.Tiempo_Acumulado + 1) % 256 < 256 := Nat.mod_lt _ (by norm_num)
    simp [Inv, TOIE0, hS, hlt]

theorem Inv_case_PAUSE (s : State) (h : Inv s) : Inv (case_PAUSE s) := by
  by_cases hP : s.Flag_Pause = 0
  · rw [case_PAUSE_effective s hP]
    have hi := (Inv_Sonido_PULSACION s).1
    simp [Inv, TOIE0, hi]
  · simpa [case_PAUSE, hP] using h

theorem Inv_case_STOP (s : State) : Inv (case_STOP s) := by
  rw [case_STOP_eq]
  simp [Inv, TOIE0]

theorem Inv_main_switch (s : State) (h : Inv s) : Inv (main_switch s) := by
  unfold main_switch
  split
  · exact Inv_Sonido_PULSACION _
  · exact Inv_case_STOP _
  · exact Inv_case_PAUSE _ h
  · exact Inv_Sonido_PULSACION _
  · exact Inv_Sonido_PULSACION _
  · exact Inv_Sonido_PULSACION _
  · exact h

theorem Inv_main_fin (s : State) (h : Inv s) : Inv (main_fin s) := by
  by_cases hc : s.Tiempo_Acumulado = 0 ∧ s.Flag_Stop = 1
  · rw [main_fin_done s hc]
    simp [Inv, TOIE0, hc.1]
  · rw [main_fin_idle s hc]
    exact h

theorem Inv_ISR_ADC_vect (v : Nat) (s : State) (h : Inv s) : Inv (ISR_ADC_vect v s) := h

theorem Inv_ISR_TIM0_OVF_vect (s : State) (h : Inv s) : Inv (ISR_TIM0_OVF_vect s) := by
  obtain ⟨h1, h2, h3, h4⟩ := h
  unfold ISR_TIM0_OVF_vect
  split_ifs with a b c
  · refine ⟨by simp, h2, fun _ _ => rfl, fun _ _ hne => absurd rfl hne⟩
  · have e : (s.Tiempo_Acumulado - 1) % 256 = s.Tiempo_Acumulado - 1 :=
      Nat.mod_eq_of_lt (by omega)
    refine ⟨by simp only [e]; omega, h2, fun _ h0 => ?_, fun hs hp _ => h4 hs hp (by omega)⟩
    simp only [e] at h0; omega
  · have e : (s.Tiempo_Acumulado - 1) % 256 = s.Tiempo_Acumulado - 1 :=
      Nat.mod_eq_of_lt (by omega)
    refine ⟨by simp only [e]; omega, h2, fun _ h0 => ?_, fun hs hp _ => h4 hs hp (by omega)⟩
    simp only [e] at h0; omega
  · exact ⟨h1, h2, h3, h4⟩

theorem Inv_Reachable (s : State) (h : Reachable s) : Inv s := by
  induction h with
  | init => unfold Inv; decide
  | iter v s _ ih => exact Inv_main_fin _ (Inv_main_switch _ (Inv_ISR_ADC_vect v s ih))
  | ovf s _ ih => exact Inv_ISR_TIM0_OVF_vect s ih

theorem main_fin_TIMSK0 (s : State) (h : Inv s)
    (ht : (main_fin s).TIMSK0 = 1 <<< TOIE0) : 0 < (main_fin s).Tiempo_Acumulado := by
  by_cases hc : s.Tiempo_Acumulado = 0 ∧ s.Flag_Stop = 1
  · rw [main_fin_done s hc] at ht
    simp [TOIE0] at ht
  · rw [main_fin_idle s hc] at ht ⊢
    rcases Nat.eq_zero_or_pos s.Tiempo_Acumulado with h0 | hpos
    · exact absurd ⟨h0, h.2.2.1 ht h0⟩ hc
    · exact hpos

theorem switch_case_NONE (v : Nat)
    (hv : v ≤ 50 ∨ (62 ≤ v ∧ v ≤ 73) ∨ (85 ≤ v ∧ v ≤ 88) ∨ (119 ≤ v ∧ v ≤ 129) ∨
          (141 ≤ v ∧ v ≤ 255)) :
    switch_case v = ButtonEvent.NONE := by
  rw [switch_case_eq]
  split_ifs <;> first | rfl | omega

/-- Claim C12.  Unknown input is a no-op: for every sample `v` outside the six bands
(0..50, 62..73, 85..88, 119..129, 141..255) and every state in which the completion
condition (`Tiempo_Acumulado = 0` and `Flag_Stop = 1`) does not hold, one main-loop
iteration leaves the whole state as it was, the stored sample apart: counter, the
four flags, `Guardar_TCNT0`, relay, timer registers, buzzer and log (no sound). -/
theorem unknown_sample_no_op (s : State) (v : Nat)
    (hv : v ≤ 50 ∨ (62 ≤ v ∧ v ≤ 73) ∨ (85 ≤ v ∧ v ≤ 88) ∨ (119 ≤ v ∧ v ≤ 129) ∨
          (141 ≤ v ∧ v ≤ 255))
    (hc : ¬ (s.Tiempo_Acumulado = 0 ∧ s.Flag_Stop = 1)) :
    iteracion v s = { s with ADC_VALUE := v } ∧
    (iteracion v s).Tiempo_Acumulado = s.Tiempo_Acumulado ∧
    (iteracion v s).Flag_Stop = s.Flag_Stop ∧
    (iteracion v s).Flag_Pause = s.Flag_Pause ∧
    (iteracion v s).Flag_Start = s.Flag_Start ∧
    (iteracion v s).Flag_Beep = s.Flag_Beep ∧
    (iteracion v s).Guardar_TCNT0 = s.Guardar_TCNT0 ∧
    (iteracion v s).PORTB = s.PORTB ∧
    (iteracion v s).DDRB = s.DDRB ∧
    (iteracion v s).TCNT0 = s.TCNT0 ∧
    (iteracion v s).TCCR0A = s.TCCR0A ∧
    (iteracion v s).TCCR0B = s.TCCR0B ∧
    (iteracion v s).TIMSK0 = s.TIMSK0 ∧
    (iteracion v s).ICR0 = s.ICR0 ∧
    (iteracion v s).OCR0B = s.OCR0B ∧
    (iteracion v s).log = s.log := by
  have hlt : v < 256 := by omega
  have e : iteracion v s = { s with ADC_VALUE := v } := by
    rw [iteracion_eq v s hlt, main_loop]
    have hs : main_switch { s with ADC_VALUE := v } = { s with ADC_VALUE := v } := by
      simp only [main_switch, switch_case_NONE v hv]
    rw [hs]
    exact main_fin_idle _ hc
  refine ⟨e, ?_, ?_, ?_, ?_, ?_, ?_, ?_, ?_, ?_, ?_, ?_, ?_, ?_, ?_, ?_⟩ <;> rw [e]

/-- Witness of `unknown_sample_no_op`: a RUNNING state with 5 minutes and the sample
125, between the ADD_5MIN and ADD_10MIN bands. -/
theorem unknown_sample_no_op_witness :
    iteracion 125 (estado_RUNNING 5 10000) = { estado_RUNNING 5 10000 with ADC_VALUE := 125 } :=
  (unknown_sample_no_op (estado_RUNNING 5 10000) 125 (by decide) (by decide)).1

/-! ## The statement-by-statement embedding agrees with the first one -/

theorem ultimo_append (s : State) (l1 l2 : List State) :
    ultimo s (l1 ++ l2) = ultimo (ultimo s l1) l2 := by
  induction l1 generalizing s with
  | nil => rfl
  | cons t l ih => exact ih t

theorem ultimo_paso (f : State → State) (s : State) : ultimo s (paso f s) = f s := rfl

theorem secuencia_nil (s : State) : secuencia [] s = [] := rfl

theorem secuencia_cons (p : State → List State) (ps : List (State → List State)) (s : State) :
    secuencia (p :: ps) s = p s ++ secuencia ps (ultimo s (p s)) := rfl

theorem ultimo_secuencia_nil (s : State) : ultimo s (secuencia [] s) = s := rfl

theorem ultimo_secuencia_cons (p : State → List State) (ps : List (State → List State))
    (s : State) :
    ultimo s (secuencia (p :: ps) s) =
      ultimo (ultimo s (p s)) (secuencia ps (ultimo s (p s))) := by
  rw [secuencia_cons, ultimo_append]

theorem ultimo_pasos_Iniciar_Conteo (tcnt0 : Nat) (s : State) :
    ultimo s (pasos_Iniciar_Conteo tcnt0 s) = Iniciar_Conteo tcnt0 s := by
  unfold pasos_Iniciar_Conteo Iniciar_Conteo
  split_ifs
  · simp only [ultimo_secuencia_cons, ultimo_secuencia_nil, ultimo_paso]
  · rfl

theorem ultimo_pasos_Parar_Conteo (s : State) :
    ultimo s (pasos_Parar_Conteo s) = Parar_Conteo s := by
  simp only [pasos_Parar_Conteo, ultimo_secuencia_cons, ultimo_secuencia_nil, ultimo_paso,
    Parar_Conteo]

theorem ultimo_pasos_PWM__Beep_Enable (s : State) :
    ultimo s (pasos_PWM__Beep_Enable s) = PWM__Beep_Enable s := by
  simp only [pasos_PWM__Beep_Enable, ultimo_secuencia_cons, ultimo_secuencia_nil, ultimo_paso,
    PWM__Beep_Enable]

theorem ultimo_pasos_PWM__Beep_Disable (s : State) :
    ultimo s (pasos_PWM__Beep_Disable s) = PWM__Beep_Disable s := by
  simp only [pasos_PWM__Beep_Disable, ultimo_secuencia_cons, ultimo_secuencia_nil, ultimo_paso,
    PWM__Beep_Disable]

theorem ultimo_pasos_Enable_Beep (s : State) :
    ultimo s (pasos_Enable_Beep s) = Enable_Beep s := by
  simp only [pasos_Enable_Beep, ultimo_secuencia_cons, ultimo_secuencia_nil, ultimo_paso,
    Enable_Beep]

theorem ultimo_pasos_Activar_Sonido_STOP_body (s : State) :
    ultimo s (pasos_Activar_Sonido_STOP_body s) = Activar_Sonido_STOP_body s := by
  simp only [pasos_Activar_Sonido_STOP_body, ultimo_secuencia_cons, ultimo_secuencia_nil,
    ultimo_paso, ultimo_pasos_Enable_Beep, Activar_Sonido_STOP_body]

theorem ultimo_pasos_Activar_Sonido_STOP_for (fuel Sound : Nat) (s : State) :
    ultimo s (pasos_Activar_Sonido_STOP_for fuel Sound s) =
      Activar_Sonido_STOP_for fuel Sound s := by
  induction fuel generalizing Sound s with
  | zero => rfl
  | succ n ih =>
    simp only [pasos_Activar_Sonido_STOP_for, Activar_Sonido_STOP_for]
    split_ifs
    · rw [ultimo_append, ultimo_pasos_Activar_Sonido_STOP_body, ih]
    · rfl

theorem ultimo_pasos_Activar_Sonido_STOP (s : State) :
    ultimo s (pasos_Activar_Sonido_STOP s) = Activar_Sonido_STOP s := by
  simp only [pasos_Activar_Sonido_STOP, ultimo_secuencia_cons, ultimo_secuencia_nil,
    ultimo_paso, ultimo_pasos_PWM__Beep_Enable, ultimo_pasos_Activar_Sonido_STOP_for,
    ultimo_pasos_PWM__Beep_Disable, Activar_Sonido_STOP]

theorem ultimo_pasos_Sonido_PULSACION_tono (s : State) :
    ultimo s (pasos_Sonido_PULSACION_tono s) = Sonido_PULSACION_tono s := by
  simp only [pasos_Sonido_PULSACION_tono, ultimo_secuencia_cons, ultimo_secuencia_nil,
    ultimo_paso, ultimo_pasos_PWM__Beep_Enable, ultimo_pasos_PWM__Beep_Disable,
    Sonido_PULSACION_tono]

theorem ultimo_pasos_Sonido_PULSACION (s : State) :
    ultimo s (pasos_Sonido_PULSACION s) = Sonido_PULSACION s := by
  simp only [pasos_Sonido_PULSACION, ultimo_secuencia_cons, ultimo_secuencia_nil, ultimo_paso,
    Sonido_PULSACION]
  split_ifs
  · simp only [ultimo_secuencia_cons, ultimo_secuencia_nil, ultimo_paso,
      ultimo_pasos_Sonido_PULSACION_tono, ultimo_pasos_Iniciar_Conteo]
  · simp only [ultimo_pasos_Sonido_PULSACION_tono]

theorem ultimo_pasos_case_START (s : State) :
    ultimo s (pasos_case_START s) = case_START s := by
  simp only [pasos_case_START, ultimo_secuencia_cons, ultimo_secuencia_nil, ultimo_paso,
    ultimo_pasos_Sonido_PULSACION, case_START, case_START_inicio]
  split_ifs
  · simp only [ultimo_secuencia_cons, ultimo_secuencia_nil, ultimo_paso,
      ultimo_pasos_Iniciar_Conteo]
  · simp only [ultimo_pasos_Iniciar_Conteo]

theorem ultimo_pasos_case_STOP (s : State) :
    ultimo s (pasos_case_STOP s) = case_STOP s := by
  simp only [pasos_case_STOP, ultimo_secuencia_cons, ultimo_secuencia_nil, ultimo_paso,
    ultimo_pasos_Parar_Conteo, ultimo_pasos_Activar_Sonido_STOP, case_STOP]

theorem ultimo_pasos_case_PAUSE (s : State) :
    ultimo s (pasos_case_PAUSE s) = case_PAUSE s := by
  unfold pasos_case_PAUSE case_PAUSE
  split_ifs
  · simp only [ultimo_secuencia_cons, ultimo_secuencia_nil, ultimo_paso,
      ultimo_pasos_Parar_Conteo, ultimo_pasos_Sonido_PULSACION]
  · rfl

theorem ultimo_pasos_case_Minuto (n : Nat) (s : State) :
    ultimo s (pasos_case_Minuto n s) = case_Minuto n s := by
  simp only [pasos_case_Minuto, ultimo_secuencia_cons, ultimo_secuencia_nil, ultimo_paso,
    ultimo_pasos_Sonido_PULSACION, case_Minuto]

theorem ultimo_pasos_main_switch (s : State) :
    ultimo s (pasos_main_switch s) = main_switch s := by
  unfold pasos_main_switch main_switch
  split
  · exact ultimo_pasos_case_START s
  · exact ultimo_pasos_case_STOP s
  · exact ultimo_pasos_case_PAUSE s
  · exact ultimo_pasos_case_Minuto 1 s
  · exact ultimo_pasos_case_Minuto 5 s
  · exact ultimo_pasos_case_Minuto 10 s
  · rfl

theorem ultimo_pasos_main_fin (s : State) :
    ultimo s (pasos_main_fin s) = main_fin s := by
  unfold pasos_main_fin main_fin
  split_ifs
  · simp only [ultimo_secuencia_cons, ultimo_secuencia_nil, ultimo_paso,
      ultimo_pasos_Parar_Conteo, ultimo_pasos_Activar_Sonido_STOP]
  · rfl

theorem ultimo_pasos_main_loop (s : State) :
    ultimo s (pasos_main_loop s) = main_loop s := by
  simp only [pasos_main_loop, ultimo_secuencia_cons, ultimo_secuencia_nil,
    ultimo_pasos_main_switch, ultimo_pasos_main_fin, main_loop]

/-! ## Mutual exclusion of the two timer modes -/

theorem Terna_paso {P I Q : State → Prop} {f : State → State}
    (h : ∀ s, P s → I (f s) ∧ Q (f s)) : Terna P I Q (paso f) := by
  intro s hs
  refine ⟨fun t ht => ?_, (h s hs).2⟩
  have e : t = f s := by simpa [paso] using ht
  rw [e]; exact (h s hs).1

theorem Terna_nil {P I Q : State → Prop} (h : ∀ s, P s → Q s) :
    Terna P I Q (secuencia []) :=
  fun s hs => ⟨fun _ ht => by simp [secuencia] at ht, h s hs⟩

theorem Terna_vacia {P I Q : State → Prop} (h : ∀ s, P s → Q s) :
    Terna P I Q (fun _ => []) :=
  fun s hs => ⟨fun _ ht => by simp at ht, h s hs⟩

theorem Terna_cons {P R Q I : State → Prop} {p : State → List State}
    {ps : List (State → List State)}
    (h1 : Terna P I R p) (h2 : Terna R I Q (secuencia ps)) :
    Terna P I Q (secuencia (p :: ps)) := by
  intro s hs
  obtain ⟨a1, b1⟩ := h1 s hs
  obtain ⟨a2, b2⟩ := h2 _ b1
  refine ⟨fun t ht => ?_, ?_⟩
  · rw [secuencia_cons, List.mem_append] at ht
    rcases ht with ht | ht
    · exact a1 t ht
    · exact a2 t ht
  · rw [ultimo_secuencia_cons]; exact b2

theorem Terna_debil {P P' I I' Q Q' : State → Prop} {p : State → List State}
    (h : Terna P I Q p) (hP : ∀ s, P' s → P s) (hI : ∀ s, I s → I' s)
    (hQ : ∀ s, Q s → Q' s) : Terna P' I' Q' p :=
  fun s hs => ⟨fun t ht => hI t ((h s (hP s hs)).1 t ht), hQ _ (h s (hP s hs)).2⟩

theorem Terna_si {P I Q : State → Prop} (c : State → Prop) [DecidablePred c]
    {p q : State → List State}
    (hp : Terna (fun s => P s ∧ c s) I Q p) (hq : Terna (fun s => P s ∧ ¬ c s) I Q q) :
    Terna P I Q (fun s => if c s then p s else q s) := by
  intro s hs
  by_cases hc : c s
  · simp only [hc, if_true]; exact hp s ⟨hs, hc⟩
  · simp only [hc, if_false]; exact hq s ⟨hs, hc⟩

/-- A sequence of routines that each keep `P` keeps `P`. -/
theorem Terna_todos {P : State → Prop} (ps : List (State → List State))
    (h : ∀ p ∈ ps, Terna P P P p) : Terna P P P (secuencia ps) := by
  induction ps with
  | nil => exact Terna_nil (fun _ hs => hs)
  | cons p ps ih =>
    exact Terna_cons (h p (List.mem_cons_self p ps))
      (ih (fun q hq => h q (List.mem_cons_of_mem p hq)))

theorem sin_OVF_PWM__Beep_Enable : Terna sin_OVF sin_OVF sin_OVF pasos_PWM__Beep_Enable := by
  apply Terna_todos
  intro p hp
  simp only [List.mem_cons, List.mem_singleton, List.not_mem_nil, or_false] at hp
  rcases hp with rfl | rfl | rfl | rfl <;>
    exact Terna_paso (fun s hs => ⟨by simpa [sin_OVF, Beep] using hs,
      by simpa [sin_OVF, Beep] using hs⟩)

theorem sin_OVF_PWM__Beep_Disable :
    Terna sin_OVF sin_OVF (fun s => sin_PWM s ∧ sin_OVF s) pasos_PWM__Beep_Disable := by
  unfold pasos_PWM__Beep_Disable
  refine Terna_cons (R := fun s => sin_PWM s ∧ sin_OVF s)
    (Terna_paso (fun s hs => ⟨by simpa [sin_OVF] using hs, by simpa [sin_OVF, sin_PWM] using hs⟩))
    (Terna_debil (I := fun s => sin_PWM s ∧ sin_OVF s) ?_ (fun _ h => h) (fun _ h => h.2)
      (fun _ h => h))
  apply Terna_todos
  intro p hp
  simp only [List.mem_cons, List.mem_singleton, List.not_mem_nil, or_false] at hp
  rcases hp with rfl | rfl | rfl | rfl <;>
    exact Terna_paso (fun s hs => by constructor <;> simp_all [sin_OVF, sin_PWM])

theorem Terna_seq {P R R' Q I : State → Prop} {p : State → List State}
    {ps : List (State → List State)}
    (h1 : Terna P I R p) (hR : ∀ s, R s → R' s) (h2 : Terna R' I Q (secuencia ps)) :
    Terna P I Q (secuencia (p :: ps)) :=
  Terna_cons h1 (Terna_debil h2 hR (fun _ h => h) (fun _ h => h))

theorem Terna_fin {P I : State → Prop} : Terna P I P (secuencia []) :=
  Terna_nil (fun _ h => h)

theorem Seguro_de_sin_PWM (s : State) (h : sin_PWM s) : Seguro s := Or.inl h

theorem Seguro_de_sin_OVF (s : State) (h : sin_OVF s) : Seguro s := Or.inr h

/-- A statement that does not write `TCCR0A`. -/
theorem paso_sin_PWM (f : State → State) (h : ∀ s, (f s).TCCR0A = s.TCCR0A) :
    Terna sin_PWM Seguro sin_PWM (paso f) :=
  Terna_paso (fun s hs => by
    have e : (f s).TCCR0A = 0 := by rw [h s]; exact hs
    exact ⟨Or.inl e, e⟩)

/-- A statement that does not write `TIMSK0`. -/
theorem paso_sin_OVF (f : State → State) (h : ∀ s, (f s).TIMSK0 = s.TIMSK0) :
    Terna sin_OVF Seguro sin_OVF (paso f) :=
  Terna_paso (fun s hs => by
    have e : (f s).TIMSK0 = 0 := by rw [h s]; exact hs
    exact ⟨Or.inr e, e⟩)

/-- A statement that writes neither `TCCR0A` nor `TIMSK0`. -/
theorem paso_sin_PWM_sin_OVF (f : State → State) (h : ∀ s, (f s).TCCR0A = s.TCCR0A)
    (h' : ∀ s, (f s).TIMSK0 = s.TIMSK0) :
    Terna (fun s => sin_PWM s ∧ sin_OVF s) Seguro (fun s => sin_PWM s ∧ sin_OVF s) (paso f) :=
  Terna_paso (fun s hs => by
    have e : (f s).TCCR0A = 0 := by rw [h s]; exact hs.1
    have e' : (f s).TIMSK0 = 0 := by rw [h' s]; exact hs.2
    exact ⟨Or.inl e, e, e'⟩)

/-- A statement that does not write `TIMSK0` keeps the overflow interrupt disabled. -/
theorem paso_mantiene_sin_OVF (f : State → State) (h : ∀ s, (f s).TIMSK0 = s.TIMSK0) :
    Terna sin_OVF sin_OVF sin_OVF (paso f) :=
  Terna_paso (fun s hs => by
    have e : (f s).TIMSK0 = 0 := by rw [h s]; exact hs
    exact ⟨e, e⟩)

theorem sin_OVF_Enable_Beep : Terna sin_OVF sin_OVF sin_OVF pasos_Enable_Beep := by
  apply Terna_todos
  intro p hp
  simp only [List.mem_cons, List.mem_singleton, List.not_mem_nil, or_false] at hp
  rcases hp with rfl | rfl | rfl | rfl <;>
    exact Terna_paso (fun s hs => by
      constructor <;> simpa [sin_OVF, Enable_PWM, Disable_PWM, _delay_ms] using hs)

theorem sin_OVF_Activar_Sonido_STOP_body :
    Terna sin_OVF sin_OVF sin_OVF pasos_Activar_Sonido_STOP_body := by
  apply Terna_todos
  intro p hp
  simp only [List.mem_cons, List.mem_singleton, List.not_mem_nil, or_false] at hp
  rcases hp with rfl | rfl | rfl | rfl | rfl
  · exact sin_OVF_Enable_Beep
  · exact sin_OVF_Enable_Beep
  · exact sin_OVF_Enable_Beep
  · exact sin_OVF_Enable_Beep
  · exact Terna_paso (fun s hs => by constructor <;> simpa [sin_OVF, _delay_ms] using hs)

theorem sin_OVF_Activar_Sonido_STOP_for (fuel Sound : Nat) :
    Terna sin_OVF sin_OVF sin_OVF (pasos_Activar_Sonido_STOP_for fuel Sound) := by
  induction fuel generalizing Sound with
  | zero => exact fun s hs => ⟨fun _ ht => by simp [pasos_Activar_Sonido_STOP_for] at ht, hs⟩
  | succ n ih =>
    intro s hs
    simp only [pasos_Activar_Sonido_STOP_for]
    split_ifs
    · obtain ⟨a1, b1⟩ := sin_OVF_Activar_Sonido_STOP_body s hs
      obtain ⟨a2, b2⟩ := ih ((Sound + 1) % 256) _ b1
      refine ⟨fun t ht => ?_, by rw [ultimo_append]; exact b2⟩
      rcases List.mem_append.mp ht with ht | ht
      · exact a1 t ht
      · exact a2 t ht
    · exact ⟨fun _ ht => by simp at ht, hs⟩

theorem Seguro_Sonido_PULSACION_tono :
    Terna sin_OVF Seguro (fun s => sin_PWM s ∧ sin_OVF s) pasos_Sonido_PULSACION_tono := by
  have h : Terna sin_OVF sin_OVF (fun s => sin_PWM s ∧ sin_OVF s)
      pasos_Sonido_PULSACION_tono :=
    Terna_seq sin_OVF_PWM__Beep_Enable (fun _ h => h)
      (Terna_seq (paso_mantiene_sin_OVF Enable_PWM (fun _ => rfl)) (fun _ h => h)
        (Terna_seq (paso_mantiene_sin_OVF (_delay_ms 170) (fun _ => rfl)) (fun _ h => h)
          (Terna_seq (paso_mantiene_sin_OVF Disable_PWM (fun _ => rfl)) (fun _ h => h)
            (Terna_seq (paso_mantiene_sin_OVF (_delay_ms 170) (fun _ => rfl)) (fun _ h => h)
              (Terna_seq sin_OVF_PWM__Beep_Disable (fun _ h => h) Terna_fin)))))
  exact Terna_debil h (fun _ h => h) Seguro_de_sin_OVF (fun _ h => h)

theorem Seguro_Activar_Sonido_STOP :
    Terna sin_OVF Seguro (fun s => sin_PWM s ∧ sin_OVF s) pasos_Activar_Sonido_STOP := by
  have h : Terna sin_OVF sin_OVF (fun s => sin_PWM s ∧ sin_OVF s)
      pasos_Activar_Sonido_STOP :=
    Terna_seq (paso_mantiene_sin_OVF _ (fun _ => rfl)) (fun _ h => h)
      (Terna_seq sin_OVF_PWM__Beep_Enable (fun _ h => h)
        (Terna_seq (sin_OVF_Activar_Sonido_STOP_for 4 0) (fun _ h => h)
          (Terna_seq sin_OVF_PWM__Beep_Disable (fun _ h => h) Terna_fin)))
  exact Terna_debil h (fun _ h => h) Seguro_de_sin_OVF (fun _ h => h)

theorem Seguro_Iniciar_Conteo_cte (tcnt0 : Nat) :
    Terna sin_PWM Seguro sin_PWM (pasos_Iniciar_Conteo tcnt0) := by
  unfold pasos_Iniciar_Conteo
  exact Terna_si (fun s => s.Tiempo_Acumulado > 0)
    (Terna_debil
      (Terna_seq (paso_sin_PWM _ (fun _ => rfl)) (fun _ h => h)
        (Terna_seq (paso_sin_PWM _ (fun _ => rfl)) (fun _ h => h)
          (Terna_seq (paso_sin_PWM _ (fun _ => rfl)) (fun _ h => h)
            (Terna_seq (paso_sin_PWM Rele_ON (fun _ => rfl)) (fun _ h => h) Terna_fin))))
      (fun _ h => h.1) (fun _ h => h) (fun _ h => h))
    (Terna_vacia (fun _ h => h.1))

theorem Seguro_Iniciar_Conteo (g : State → Nat) :
    Terna sin_PWM Seguro sin_PWM (fun s => pasos_Iniciar_Conteo (g s) s) :=
  fun s hs => Seguro_Iniciar_Conteo_cte (g s) s hs

theorem Seguro_Parar_Conteo :
    Terna sin_PWM Seguro (fun s => sin_PWM s ∧ sin_OVF s) pasos_Parar_Conteo :=
  Terna_seq (paso_sin_PWM Rele_OFF (fun _ => rfl)) (fun _ h => h)
    (Terna_seq
      (Terna_paso (P := sin_PWM) (I := Seguro) (Q := fun s => sin_PWM s ∧ sin_OVF s)
        (fun _ hs => ⟨Or.inl hs, hs, rfl⟩)) (fun _ h => h)
      (Terna_seq (paso_sin_PWM_sin_OVF _ (fun _ => rfl) (fun _ => rfl)) (fun _ h => h)
        Terna_fin))

theorem Seguro_Sonido_PULSACION : Terna sin_PWM Seguro sin_PWM pasos_Sonido_PULSACION := by
  have rama : Terna sin_OVF Seguro sin_PWM
      (secuencia
        [ paso (fun s => { s with Flag_Beep := 1 }),
          paso (fun s => { s with Guardar_TCNT0 := s.TCNT0 }),
          pasos_Sonido_PULSACION_tono,
          fun s => pasos_Iniciar_Conteo (s.Guardar_TCNT0 + 340) s,
          paso (fun s => { s with Flag_Beep := 0 }) ]) :=
    Terna_seq (paso_sin_OVF _ (fun _ => rfl)) (fun _ h => h)
      (Terna_seq (paso_sin_OVF _ (fun _ => rfl)) (fun _ h => h)
        (Terna_seq Seguro_Sonido_PULSACION_tono (fun _ h => h.1)
          (Terna_seq (Seguro_Iniciar_Conteo (fun s => s.Guardar_TCNT0 + 340)) (fun _ h => h)
            (Terna_seq (paso_sin_PWM _ (fun _ => rfl)) (fun _ h => h) Terna_fin))))
  exact Terna_seq (paso_sin_PWM _ (fun _ => rfl)) (fun _ h => h)
    (Terna_seq (paso_sin_PWM _ (fun _ => rfl)) (fun _ h => h)
      (Terna_seq
        (Terna_paso (P := sin_PWM) (I := Seguro) (Q := sin_OVF)
          (fun _ _ => ⟨Or.inr rfl, rfl⟩)) (fun _ h => h)
        (Terna_seq
          (Terna_si (fun s => s.Flag_Start = 1)
            (Terna_debil rama (fun _ h => h.1) (fun _ h => h) (fun _ h => h))
            (Terna_debil Seguro_Sonido_PULSACION_tono (fun _ h => h.1) (fun _ h => h)
              (fun _ h => h.1)))
          (fun _ h => h) Terna_fin)))

theorem Seguro_case_START : Terna sin_PWM Seguro sin_PWM pasos_case_START :=
  Terna_seq
    (Terna_si (fun s => s.Flag_Pause = 1)
      (Terna_debil
        (Terna_seq (Seguro_Iniciar_Conteo (fun s => s.Guardar_TCNT0)) (fun _ h => h)
          (Terna_seq (paso_sin_PWM _ (fun _ => rfl)) (fun _ h => h) Terna_fin))
        (fun _ h => h.1) (fun _ h => h) (fun _ h => h))
      (Terna_debil (Seguro_Iniciar_Conteo (fun _ => Set_1min))
        (fun _ h => h.1) (fun _ h => h) (fun _ h => h)))
    (fun _ h => h)
    (Terna_seq (paso_sin_PWM _ (fun _ => rfl)) (fun _ h => h)
      (Terna_seq Seguro_Sonido_PULSACION (fun _ h => h) Terna_fin))

theorem Seguro_case_STOP : Terna sin_PWM Seguro sin_PWM pasos_case_STOP :=
  Terna_seq Seguro_Parar_Conteo (fun _ h => h)
    (Terna_seq (paso_sin_PWM_sin_OVF _ (fun _ => rfl) (fun _ => rfl)) (fun _ h => h)
      (Terna_seq (paso_sin_PWM_sin_OVF _ (fun _ => rfl) (fun _ => rfl)) (fun _ h => h.2)
        (Terna_seq Seguro_Activar_Sonido_STOP (fun _ h => h.1) Terna_fin)))

theorem Seguro_case_PAUSE : Terna sin_PWM Seguro sin_PWM pasos_case_PAUSE :=
  Terna_si (fun s => s.Flag_Pause = 0)
    (Terna_debil
      (Terna_seq Seguro_Sonido_PULSACION (fun _ h => h)
        (Terna_seq (paso_sin_PWM _ (fun _ => rfl)) (fun _ h => h)
          (Terna_seq Seguro_Parar_Conteo (fun _ h => h.1)
            (Terna_seq (paso_sin_PWM _ (fun _ => rfl)) (fun _ h => h) Terna_fin))))
      (fun _ h => h.1) (fun _ h => h) (fun _ h => h))
    (Terna_vacia (fun _ h => h.1))

theorem Seguro_case_Minuto (n : Nat) : Terna sin_PWM Seguro sin_PWM (pasos_case_Minuto n) :=
  Terna_seq (paso_sin_PWM _ (fun _ => rfl)) (fun _ h => h)
    (Terna_seq Seguro_Sonido_PULSACION (fun _ h => h) Terna_fin)

theorem Seguro_main_switch : Terna sin_PWM Seguro sin_PWM pasos_main_switch := by
  intro s hs
  unfold pasos_main_switch
  split
  · exact Seguro_case_START s hs
  · exact Seguro_case_STOP s hs
  · exact Seguro_case_PAUSE s hs
  · exact Seguro_case_Minuto 1 s hs
  · exact Seguro_case_Minuto 5 s hs
  · exact Seguro_case_Minuto 10 s hs
  · exact ⟨fun _ ht => by simp at ht, hs⟩

theorem Seguro_main_fin : Terna sin_PWM Seguro sin_PWM pasos_main_fin :=
  Terna_si (fun s => s.Tiempo_Acumulado = 0 ∧ s.Flag_Stop = 1)
    (Terna_debil
      (Terna_seq Seguro_Parar_Conteo (fun _ h => h)
        (Terna_seq (paso_sin_PWM_sin_OVF _ (fun _ => rfl) (fun _ => rfl)) (fun _ h => h)
          (Terna_seq (paso_sin_PWM_sin_OVF _ (fun _ => rfl) (fun _ => rfl)) (fun _ h => h.2)
            (Terna_seq Seguro_Activar_Sonido_STOP (fun _ h => h.1) Terna_fin))))
      (fun _ h => h.1) (fun _ h => h) (fun _ h => h))
    (Terna_vacia (fun _ h => h.1))

theorem Seguro_main_loop : Terna sin_PWM Seguro sin_PWM pasos_main_loop :=
  Terna_seq Seguro_main_switch (fun _ h => h)
    (Terna_seq Seguro_main_fin (fun _ h => h) Terna_fin)

theorem sin_PWM_Reachable (s : State) (h : Reachable s) : sin_PWM s := by
  induction h with
  | init => unfold sin_PWM; decide
  | iter v s _ ih =>
    have h := (Seguro_main_loop (ISR_ADC_vect v s) ih).2
    rw [ultimo_pasos_main_loop] at h
    exact h
  | ovf s _ ih =>
    unfold sin_PWM ISR_TIM0_OVF_vect
    split_ifs <;> exact ih

theorem ISR_TIM0_OVF_vect_registros (t : State) :
    (ISR_TIM0_OVF_vect t).TCCR0A = t.TCCR0A ∧ (ISR_TIM0_OVF_vect t).TIMSK0 = t.TIMSK0 := by
  unfold ISR_TIM0_OVF_vect
  split_ifs <;> exact ⟨rfl, rfl⟩

/-- Claim C13.  Timer mode mutual exclusion.  In every state reachable from power-on
(main-loop iterations with any samples, timer-overflow firings between them) the
timer is not in PWM tone mode (`TCCR0A = 0`); and when the next main-loop iteration is
taken statement by statement, in the state after each statement the timer is never
configured for PWM (`TCCR0A` not 0, written by `PWM__Beep_Enable`) while the overflow
interrupt is enabled (`TIMSK0 = TOIE0`): wherever `TCCR0A` is not 0, `TIMSK0 = 0`, from
the first statement of `PWM__Beep_Enable` until `PWM__Beep_Disable` has cleared
`TCCR0A`.  The list of states is the one of the iteration (its last state is the
result of the iteration), and the overflow routine itself writes neither register. -/
theorem timer_mode_exclusion (s : State) (h : Reachable s) (v : Nat) :
    s.TCCR0A = 0 ∧
    (∀ t ∈ pasos_main_loop (ISR_ADC_vect v s),
      ¬ (t.TCCR0A ≠ 0 ∧ t.TIMSK0 = 1 <<< TOIE0)) ∧
    (∀ t ∈ pasos_main_loop (ISR_ADC_vect v s), t.TCCR0A ≠ 0 → t.TIMSK0 = 0) ∧
    ultimo (ISR_ADC_vect v s) (pasos_main_loop (ISR_ADC_vect v s)) = iteracion v s ∧
    (iteracion v s).TCCR0A = 0 ∧
    (∀ t : State, (ISR_TIM0_OVF_vect t).TCCR0A = t.TCCR0A ∧
      (ISR_TIM0_OVF_vect t).TIMSK0 = t.TIMSK0) := by
  have h0 : sin_PWM s := sin_PWM_Reachable s h
  have ht := Seguro_main_loop (ISR_ADC_vect v s) h0
  refine ⟨h0, fun t hm hbad => ?_, fun t hm hne => ?_, ultimo_pasos_main_loop _,
    sin_PWM_Reachable _ (Reachable.iter v s h), ISR_TIM0_OVF_vect_registros⟩
  · rcases ht.1 t hm with ha | hb
    · exact hbad.1 ha
    · rw [hb] at hbad
      exact absurd hbad.2 (by decide)
  · rcases ht.1 t hm with ha | hb
    · exact absurd ha hne
    · exact hb

set_option maxRecDepth 1000000 in
/-- Witness of `timer_mode_exclusion`: the first iteration after power-on with the
START sample 55.  Its 24 statements include states in PWM tone mode, all of them with
the overflow interrupt disabled. -/
theorem timer_mode_exclusion_witness :
    (pasos_main_loop (ISR_ADC_vect 55 estado_inicial)).length = 24 ∧
    (pasos_main_loop (ISR_ADC_vect 55 estado_inicial)).any
      (fun t => decide (t.TCCR0A ≠ 0)) = true ∧
    (∀ t ∈ pasos_main_loop (ISR_ADC_vect 55 estado_inicial),
      ¬ (t.TCCR0A ≠ 0 ∧ t.TIMSK0 = 1 <<< TOIE0)) :=
  ⟨by decide, by decide, (timer_mode_exclusion estado_inicial Reachable.init 55).2.1⟩

theorem Activar_Sonido_STOP_for_fuel (n : Nat) (s : State) :
    Activar_Sonido_STOP_for (n + 4) 0 s = Activar_Sonido_STOP_for 4 0 s := by
  simp [Activar_Sonido_STOP_for]

/-- Claim C14.  Alarm pattern: for every state, `Activar_Sonido_STOP` produces exactly
three repetitions, each made of four back-to-back tone bursts (buzzer pin enabled for
250 time-units, then disabled for 150) followed by a 250 time-unit pause, 12 bursts
in total; the loop ends by its own test whatever fuel of at least 4 it is given; on
return the PWM configuration is off (`TCCR0A = TCCR0B = ICR0 = OCR0B = TIMSK0 = 0`) and
the buzzer pin is disabled.  Within one burst the pin is an output during the 250
delay and not during the 150 delay. -/
theorem alarm_pattern (s : State) :
    (Activar_Sonido_STOP s).log =
      s.log ++ Ev.call_Activar_Sonido_STOP ::
        (List.replicate 3
          ((List.replicate 4
              [Ev.buzzer_on, Ev.delay_ms 250, Ev.buzzer_off, Ev.delay_ms 150]).flatten ++
            [Ev.delay_ms 250])).flatten ∧
    (Activar_Sonido_STOP s).log = s.log ++ alarm_log ∧
    alarm_log.count Ev.buzzer_on = 12 ∧
    alarm_log.count Ev.buzzer_off = 12 ∧
    (pasos_Enable_Beep s).map buzzer = [true, true, false, false] ∧
    (∀ n : Nat, Activar_Sonido_STOP_for (n + 4) 0 (PWM__Beep_Enable
        { s with log := s.log ++ [Ev.call_Activar_Sonido_STOP] }) =
      Activar_Sonido_STOP_for 4 0 (PWM__Beep_Enable
        { s with log := s.log ++ [Ev.call_Activar_Sonido_STOP] })) ∧
    (Activar_Sonido_STOP s).TCCR0A = 0 ∧
    (Activar_Sonido_STOP s).TCCR0B = 0 ∧
    (Activar_Sonido_STOP s).ICR0 = 0 ∧
    (Activar_Sonido_STOP s).OCR0B = 0 ∧
    (Activar_Sonido_STOP s).TIMSK0 = 0 ∧
    buzzer (Activar_Sonido_STOP s) = false := by
  have e := Activar_Sonido_STOP_eq s
  have hl : alarm_log = Ev.call_Activar_Sonido_STOP ::
      (List.replicate 3
        ((List.replicate 4
            [Ev.buzzer_on, Ev.delay_ms 250, Ev.buzzer_off, Ev.delay_ms 150]).flatten ++
          [Ev.delay_ms 250])).flatten := by decide
  refine ⟨by rw [e, ← hl], by rw [e], by decide, by decide, ?_,
    fun n => Activar_Sonido_STOP_for_fuel n _, by rw [e], by rw [e], by rw [e], by rw [e],
    by rw [e], ?_⟩
  · simp [pasos_Enable_Beep, secuencia, paso, ultimo, buzzer, Enable_PWM, Disable_PWM, _delay_ms,
      testBit_setBit8_self, testBit_clrBit8_self, PORTB1]
  · rw [e]; simp [buzzer, testBit_clrBit8_self]

/-- Claim C15.  Tone constants: after `PWM__Beep_Enable`, with `F_CPU = 980000` and the
clock select bits at `CS00` alone (divider 1), the PWM top register is
`ICR0 = F_CPU/2000 - 1 = 489` and the compare register is `OCR0B = ICR0/2 = 244`; the
period `ICR0 + 1 = 490` clock cycles is exactly `F_CPU/2000`, and `F_CPU` is exactly
2000 periods (a 2 kHz tone); the duty cycle `(OCR0B + 1)/(ICR0 + 1)` is exactly one
half; both values fit in 16 bits. -/
theorem tone_constants (s : State) :
    F_CPU = 980000 ∧
    (PWM__Beep_Enable s).TCCR0B = ((1 <<< WGM02) ||| (1 <<< WGM03) ||| (1 <<< CS00)) ∧
    (PWM__Beep_Enable s).TCCR0B &&& 7 = 1 <<< CS00 ∧
    (PWM__Beep_Enable s).ICR0 = F_CPU / 2000 - 1 ∧
    (PWM__Beep_Enable s).ICR0 = 489 ∧
    (PWM__Beep_Enable s).OCR0B = (PWM__Beep_Enable s).ICR0 / 2 ∧
    (PWM__Beep_Enable s).OCR0B = 244 ∧
    (PWM__Beep_Enable s).ICR0 + 1 = 490 ∧
    (PWM__Beep_Enable s).ICR0 + 1 = F_CPU / 2000 ∧
    2000 * ((PWM__Beep_Enable s).ICR0 + 1) = F_CPU ∧
    2 * ((PWM__Beep_Enable s).OCR0B + 1) = (PWM__Beep_Enable s).ICR0 + 1 ∧
    (PWM__Beep_Enable s).ICR0 < 65536 ∧
    (PWM__Beep_Enable s).OCR0B < 65536 := by
  have e : PWM__Beep_Enable s = { s with TCCR0A := 34, TCCR0B := 25, ICR0 := 489, OCR0B := 244 } := by
    simp [PWM__Beep_Enable, Beep, F_CPU, COM0B1, WGM01, WGM02, WGM03, CS00]
  rw [e]
  simp [F_CPU, WGM02, WGM03, CS00]
  decide

/-- Claim C16 (the code departs from the comment on its own line).  With
`F_CPU = 980000` the product `F_CPU * 60` fits in 32 bits and the macro of line 52 is
`Set_1min = 65536 - (F_CPU*60)/1024 = 8115`, in 0..65535, so `case START` loads `TCNT0`
with 8115 unchanged; the number of ticks from there up to the overflow at 65536 is the
ticks-per-minute count `(F_CPU*60)/1024 = 57421`, not the 57471 steps that the comment
on the macro states.  `Set_1seg` leaves `F_CPU/1024 = 957` ticks, as its comment
says. -/
theorem set_1min_not_57471 :
    F_CPU = 980000 ∧
    F_CPU * 60 < 2 ^ 32 ∧
    Set_1min = 65536 - (F_CPU * 60) / 1024 ∧
    Set_1min = 8115 ∧
    Set_1min < 65536 ∧
    (Iniciar_Conteo Set_1min (estado_RUNNING 3 0)).TCNT0 = Set_1min ∧
    65536 - Set_1min = (F_CPU * 60) / 1024 ∧
    65536 - Set_1min = 57421 ∧
    ¬ (65536 - Set_1min = 57471) ∧
    65536 - Set_1seg = F_CPU / 1024 ∧
    65536 - Set_1seg = 957 := by
  decide

/-- Claim C17.  Timer-overflow step: for every state with an 8-bit counter and the
flag `Flag_Beep` at 0 or 1 (the only values the program stores in it), one firing of
`ISR(TIM0_OVF_vect)` leaves `Tiempo_Acumulado - 1` when the counter was at least 1 and
0 when it was 0 (no wrap below zero); it sets `Flag_Stop = 1` when the counter was 1
and leaves `Flag_Stop` alone otherwise; it reloads `TCNT0` with `Set_1min` when the
counter was above 1 and `Flag_Beep = 0` and leaves `TCNT0` alone otherwise; and it
changes nothing else (relay, `Flag_Start`, `Flag_Pause`, `Guardar_TCNT0`, timer control
registers, log). -/
theorem overflow_step (s : State) (hT : s.Tiempo_Acumulado < 256)
    (hB : s.Flag_Beep = 0 ∨ s.Flag_Beep = 1) :
    ISR_TIM0_OVF_vect s =
      { s with
        Tiempo_Acumulado := s.Tiempo_Acumulado - 1,
        Flag_Stop := if s.Tiempo_Acumulado = 1 then 1 else s.Flag_Stop,
        TCNT0 := if 1 < s.Tiempo_Acumulado ∧ s.Flag_Beep = 0 then Set_1min else s.TCNT0 } ∧
    (1 ≤ s.Tiempo_Acumulado →
      (ISR_TIM0_OVF_vect s).Tiempo_Acumulado = s.Tiempo_Acumulado - 1) ∧
    (s.Tiempo_Acumulado = 0 → (ISR_TIM0_OVF_vect s).Tiempo_Acumulado = 0) ∧
    (s.Tiempo_Acumulado = 1 → (ISR_TIM0_OVF_vect s).Flag_Stop = 1) ∧
    (s.Tiempo_Acumulado ≠ 1 → (ISR_TIM0_OVF_vect s).Flag_Stop = s.Flag_Stop) ∧
    (1 < s.Tiempo_Acumulado ∧ s.Flag_Beep = 0 → (ISR_TIM0_OVF_vect s).TCNT0 = Set_1min) ∧
    (¬ (1 < s.Tiempo_Acumulado ∧ s.Flag_Beep = 0) → (ISR_TIM0_OVF_vect s).TCNT0 = s.TCNT0) ∧
    relay (ISR_TIM0_OVF_vect s) = relay s ∧
    (ISR_TIM0_OVF_vect s).Flag_Start = s.Flag_Start ∧
    (ISR_TIM0_OVF_vect s).Flag_Pause = s.Flag_Pause ∧
    (ISR_TIM0_OVF_vect s).Guardar_TCNT0 = s.Guardar_TCNT0 ∧
    (ISR_TIM0_OVF_vect s).TCCR0A = s.TCCR0A ∧
    (ISR_TIM0_OVF_vect s).TCCR0B = s.TCCR0B ∧
    (ISR_TIM0_OVF_vect s).TIMSK0 = s.TIMSK0 ∧
    (ISR_TIM0_OVF_vect s).log = s.log := by
  have hS : Set_1min % 65536 = Set_1min := by decide
  have e : ISR_TIM0_OVF_vect s =
      { s with
        Tiempo_Acumulado := s.Tiempo_Acumulado - 1,
        Flag_Stop := if s.Tiempo_Acumulado = 1 then 1 else s.Flag_Stop,
        TCNT0 := if 1 < s.Tiempo_Acumulado ∧ s.Flag_Beep = 0 then Set_1min else s.TCNT0 } := by
    rcases Nat.lt_trichotomy s.Tiempo_Acumulado 1 with h0 | h1 | h2
    · have h0' : s.Tiempo_Acumulado = 0 := by omega
      simp only [ISR_TIM0_OVF_vect, h0']
      cases s
      simp_all
    · simp [ISR_TIM0_OVF_vect, h1]
    · have hne : s.Tiempo_Acumulado ≠ 1 := by omega
      have hm : (s.Tiempo_Acumulado - 1) % 256 = s.Tiempo_Acumulado - 1 :=
        Nat.mod_eq_of_lt (by omega)
      rcases hB with hb | hb
      · simp [ISR_TIM0_OVF_vect, hne, h2, hb, hm, hS]
      · simp [ISR_TIM0_OVF_vect, hne, h2, hb, hm]
  refine ⟨e, fun _ => by rw [e], fun h0 => by rw [e]; simp [h0], fun h1 => by rw [e]; simp [h1],
    fun h1 => by rw [e]; simp [h1], fun h => by rw [e]; simp [h], fun h => by rw [e]; simp [h],
    by rw [e]; rfl, by rw [e], by rw [e], by rw [e], by rw [e], by rw [e], by rw [e], by rw [e]⟩

/-- Witness of `overflow_step`: with 3 minutes left and `Flag_Beep = 0` the counter goes
to 2 and `TCNT0` is reloaded; with 1 minute left the counter goes to 0 and `Flag_Stop`
is set. -/
theorem overflow_step_witness :
    (ISR_TIM0_OVF_vect (estado_RUNNING 3 30000)).Tiempo_Acumulado = 2 ∧
    (ISR_TIM0_OVF_vect (estado_RUNNING 3 30000)).TCNT0 = Set_1min ∧
    (ISR_TIM0_OVF_vect (estado_RUNNING 1 30000)).Flag_Stop = 1 :=
  ⟨(overflow_step (estado_RUNNING 3 30000) (by decide) (by decide)).2.1 (by decide),
   (overflow_step (estado_RUNNING 3 30000) (by decide) (by decide)).2.2.2.2.2.1 (by decide),
   (overflow_step (estado_RUNNING 1 30000) (by decide) (by decide)).2.2.2.1 (by decide)⟩

set_option maxRecDepth 1000000 in
/-- Claim C18 (the code departs from it).  In the PAUSED state reached from power-on
by ADD_1MIN, START and PAUSE (`Flag_Pause = 1`, `Flag_Start = 1`, timer stopped, relay
off) an iteration with the ADD_1MIN sample 100, the ADD_5MIN sample 110 or the
ADD_10MIN sample 135 ends with the relay bit set and the countdown timer counting,
while `Flag_Pause` is still 1 and `Guardar_TCNT0` is unchanged; a PAUSE sample after
that changes nothing, so the relay stays on. -/
theorem add_while_paused_restarts :
    estado_pausado.Flag_Pause = 1 ∧ estado_pausado.Flag_Start = 1 ∧
    stopped estado_pausado ∧ relay estado_pausado = false ∧
    relay (iteracion 100 estado_pausado) = true ∧ counting (iteracion 100 estado_pausado) ∧
    relay (iteracion 110 estado_pausado) = true ∧ counting (iteracion 110 estado_pausado) ∧
    relay (iteracion 135 estado_pausado) = true ∧ counting (iteracion 135 estado_pausado) ∧
    (iteracion 100 estado_pausado).Flag_Pause = 1 ∧
    (iteracion 100 estado_pausado).Guardar_TCNT0 = estado_pausado.Guardar_TCNT0 ∧
    relay (iteracion 80 (iteracion 100 estado_pausado)) = true ∧
    counting (iteracion 80 (iteracion 100 estado_pausado)) := by
  decide

theorem iteracion_START_Tiempo (s : State) (v : Nat) (h : 51 ≤ v ∧ v ≤ 61) :
    (iteracion v s).Tiempo_Acumulado = (s.Tiempo_Acumulado + 1) % 256 := by
  have hv : v < 256 := by omega
  rw [iteracion_eq v s hv, main_loop, main_fin_Tiempo,
    main_switch_START { s with ADC_VALUE := v } h, case_START, Sonido_PULSACION_Tiempo]
  have e : (case_START_inicio { s with ADC_VALUE := v }).Tiempo_Acumulado =
      s.Tiempo_Acumulado := by
    simp only [case_START_inicio, Iniciar_Conteo, Rele_ON]
    split_ifs <;> rfl
  rw [e]

theorem iteracion_PAUSE_Tiempo (s : State) (v : Nat) (h : 74 ≤ v ∧ v ≤ 84)
    (hP : s.Flag_Pause = 0) :
    (iteracion v s).Tiempo_Acumulado = (s.Tiempo_Acumulado + 1) % 256 := by
  have hv : v < 256 := by omega
  rw [iteracion_eq v s hv, main_loop, main_fin_Tiempo,
    main_switch_PAUSE { s with ADC_VALUE := v } h,
    case_PAUSE_effective { s with ADC_VALUE := v } hP]
  exact Sonido_PULSACION_Tiempo { s with ADC_VALUE := v }

/-- Claim C19.  Net effect of each handler on the minute counter, no interrupt taken
during the iteration: every call of `Sonido_PULSACION` adds 1 to `Tiempo_Acumulado`
modulo 256; so a START iteration and an effective PAUSE iteration (`Flag_Pause = 0`)
each change `Tiempo_Acumulado` from `t` to `(t + 1) mod 256`, and ADD_1MIN, ADD_5MIN and
ADD_10MIN iterations change it to `(t + 2) mod 256`, `(t + 6) mod 256` and
`(t + 11) mod 256`, for every prior value `t`. -/
theorem net_effect_on_counter (s : State) (v : Nat) :
    (Sonido_PULSACION s).Tiempo_Acumulado = (s.Tiempo_Acumulado + 1) % 256 ∧
    (51 ≤ v ∧ v ≤ 61 → (iteracion v s).Tiempo_Acumulado = (s.Tiempo_Acumulado + 1) % 256) ∧
    (74 ≤ v ∧ v ≤ 84 → s.Flag_Pause = 0 →
      (iteracion v s).Tiempo_Acumulado = (s.Tiempo_Acumulado + 1) % 256) ∧
    (99 ≤ v ∧ v ≤ 107 → (iteracion v s).Tiempo_Acumulado = (s.Tiempo_Acumulado + 2) % 256) ∧
    (108 ≤ v ∧ v ≤ 118 → (iteracion v s).Tiempo_Acumulado = (s.Tiempo_Acumulado + 6) % 256) ∧
    (130 ≤ v ∧ v ≤ 140 →
      (iteracion v s).Tiempo_Acumulado = (s.Tiempo_Acumulado + 11) % 256) :=
  ⟨Sonido_PULSACION_Tiempo s,
   iteracion_START_Tiempo s v,
   iteracion_PAUSE_Tiempo s v,
   fun h => iteracion_Minuto_Tiempo s v 1 (Or.inl ⟨h.1, h.2, rfl⟩),
   fun h => iteracion_Minuto_Tiempo s v 5 (Or.inr (Or.inl ⟨h.1, h.2, rfl⟩)),
   fun h => iteracion_Minuto_Tiempo s v 10 (Or.inr (Or.inr ⟨h.1, h.2, rfl⟩))⟩

/-- Witness of `net_effect_on_counter`: from a RUNNING state with 250 minutes, START
gives 251, PAUSE 251, ADD_1MIN 252, ADD_5MIN 0 and ADD_10MIN 5. -/
theorem net_effect_on_counter_witness :
    (iteracion 55 (estado_RUNNING 250 30000)).Tiempo_Acumulado = 251 ∧
    (iteracion 80 (estado_RUNNING 250 30000)).Tiempo_Acumulado = 251 ∧
    (iteracion 100 (estado_RUNNING 250 30000)).Tiempo_Acumulado = 252 ∧
    (iteracion 110 (estado_RUNNING 250 30000)).Tiempo_Acumulado = 0 ∧
    (iteracion 135 (estado_RUNNING 250 30000)).Tiempo_Acumulado = 5 :=
  ⟨(net_effect_on_counter (estado_RUNNING 250 30000) 55).2.1 (by decide),
   (net_effect_on_counter (estado_RUNNING 250 30000) 80).2.2.1 (by decide) (by decide),
   (net_effect_on_counter (estado_RUNNING 250 30000) 100).2.2.2.1 (by decide),
   (net_effect_on_counter (estado_RUNNING 250 30000) 110).2.2.2.2.1 (by decide),
   (net_effect_on_counter (estado_RUNNING 250 30000) 135).2.2.2.2.2 (by decide)⟩

theorem main_fin_Guardar_TCNT0 (s : State) :
    (main_fin s).Guardar_TCNT0 = s.Guardar_TCNT0 := by
  unfold main_fin
  split_ifs <;> simp [Activar_Sonido_STOP_eq, Parar_Conteo_eq]

theorem main_fin_alarms (s : State) (h : s.Tiempo_Acumulado = 0 ∧ s.Flag_Stop = 1) :
    alarms (main_fin s) = alarms s + 1 := by
  rw [main_fin_done s h]
  simp [alarms, List.count_append, count_alarm_alarm_log]

theorem iteracion_STOP_Flag_Pause (s : State) (v : Nat) (h : 89 ≤ v ∧ v ≤ 98) :
    (iteracion v s).Flag_Pause = s.Flag_Pause ∧
    (iteracion v s).Guardar_TCNT0 = s.Guardar_TCNT0 := by
  have hv : v < 256 := by omega
  rw [iteracion_eq v s hv, main_loop, main_fin_Flag_Pause, main_fin_Guardar_TCNT0,
    main_switch_STOP { s with ADC_VALUE := v } h, case_STOP_eq]
  exact ⟨rfl, rfl⟩

theorem iteracion_PAUSE_Flag_Pause (s : State) (v : Nat) (h : 74 ≤ v ∧ v ≤ 84)
    (hP : s.Flag_Pause = 0) : (iteracion v s).Flag_Pause = 1 := by
  have hv : v < 256 := by omega
  rw [iteracion_eq v s hv, main_loop, main_fin_Flag_Pause,
    main_switch_PAUSE { s with ADC_VALUE := v } h,
    case_PAUSE_effective { s with ADC_VALUE := v } hP]

theorem case_START_inicio_paused (s : State) (hP : s.Flag_Pause = 1) :
    case_START_inicio s =
      { Iniciar_Conteo s.Guardar_TCNT0 s with Flag_Pause := 0, Flag_Start := 1 } := by
  simp [case_START_inicio, hP]

/-- Claim C20.  STOP and natural completion do not leave the PAUSED state.  For every
state, a main-loop iteration that handles a STOP sample leaves `Flag_Pause` and
`Guardar_TCNT0` unchanged, and so does the completion branch of lines 124 to 128
(which plays the alarm when `Tiempo_Acumulado = 0` and `Flag_Stop = 1`).  Hence after
PAUSE (from a state with `Flag_Pause = 0`) then STOP, `Flag_Pause` is still 1 and
`Guardar_TCNT0` still holds the count stored by PAUSE, and the next START takes the
resume branch: it calls `Iniciar_Conteo` with that stale `Guardar_TCNT0`, not with
`Set_1min`; whenever minutes are on the counter that call restarts the timer at the
stale count. -/
theorem stop_keeps_paused (s : State) (v1 v2 v3 : Nat) (hP : s.Flag_Pause = 0)
    (h1 : 74 ≤ v1 ∧ v1 ≤ 84) (h2 : 89 ≤ v2 ∧ v2 ≤ 98) :
    (∀ t : State, (iteracion v2 t).Flag_Pause = t.Flag_Pause ∧
      (iteracion v2 t).Guardar_TCNT0 = t.Guardar_TCNT0) ∧
    (∀ t : State, (main_fin t).Flag_Pause = t.Flag_Pause ∧
      (main_fin t).Guardar_TCNT0 = t.Guardar_TCNT0) ∧
    (∀ t : State, t.Tiempo_Acumulado = 0 ∧ t.Flag_Stop = 1 →
      alarms (main_fin t) = alarms t + 1) ∧
    (iteracion v1 s).Flag_Pause = 1 ∧
    (iteracion v2 (iteracion v1 s)).Flag_Pause = 1 ∧
    (iteracion v2 (iteracion v1 s)).Guardar_TCNT0 = (iteracion v1 s).Guardar_TCNT0 ∧
    case_START_inicio (ISR_ADC_vect v3 (iteracion v2 (iteracion v1 s))) =
      { Iniciar_Conteo (iteracion v1 s).Guardar_TCNT0
          (ISR_ADC_vect v3 (iteracion v2 (iteracion v1 s))) with
        Flag_Pause := 0, Flag_Start := 1 } ∧
    (∀ t : State, t.Flag_Pause = 1 → 0 < t.Tiempo_Acumulado →
      (case_START_inicio t).TCNT0 = t.Guardar_TCNT0 % 65536 ∧
      counting (case_START_inicio t)) := by
  have hp1 : (iteracion v1 s).Flag_Pause = 1 := iteracion_PAUSE_Flag_Pause s v1 h1 hP
  have hs := iteracion_STOP_Flag_Pause (iteracion v1 s) v2 h2
  have hp2 : (iteracion v2 (iteracion v1 s)).Flag_Pause = 1 := by rw [hs.1, hp1]
  refine ⟨fun t => iteracion_STOP_Flag_Pause t v2 h2,
    fun t => ⟨main_fin_Flag_Pause t, main_fin_Guardar_TCNT0 t⟩,
    fun t ht => main_fin_alarms t ht, hp1, hp2, hs.2, ?_, fun t hp ht => ?_⟩
  · have hq : (ISR_ADC_vect v3 (iteracion v2 (iteracion v1 s))).Flag_Pause = 1 := hp2
    rw [case_START_inicio_paused _ hq]
    have hg : (ISR_ADC_vect v3 (iteracion v2 (iteracion v1 s))).Guardar_TCNT0 =
        (iteracion v1 s).Guardar_TCNT0 := hs.2
    rw [hg]
  · rw [case_START_inicio_paused t hp, Iniciar_Conteo_pos _ t ht]
    simp [counting, CS02, CS00, TOIE0]

set_option maxRecDepth 1000000 in
/-- Witness of `stop_keeps_paused`: RUNNING with 5 minutes and timer count 10000;
PAUSE (80) stores 10340, STOP (90) keeps `Flag_Pause = 1` and the stored count, and
after one more ADD_1MIN (100) the resume call of START restarts the timer at the
stale 10340 and not at `Set_1min`. -/
theorem stop_keeps_paused_witness :
    (iteracion 90 (iteracion 80 (estado_RUNNING 5 10000))).Flag_Pause = 1 ∧
    (iteracion 90 (iteracion 80 (estado_RUNNING 5 10000))).Guardar_TCNT0 =
      (iteracion 80 (estado_RUNNING 5 10000)).Guardar_TCNT0 ∧
    (iteracion 80 (estado_RUNNING 5 10000)).Guardar_TCNT0 = 10340 ∧
    (case_START_inicio (ISR_ADC_vect 55
      (iteracion 100 (iteracion 90 (iteracion 80 (estado_RUNNING 5 10000)))))).TCNT0 = 10340 ∧
    Set_1min = 8115 :=
  have h := stop_keeps_paused (estado_RUNNING 5 10000) 80 90 55 (by decide) (by decide)
    (by decide)
  ⟨h.2.2.2.2.1, h.2.2.2.2.2.1, by decide, by decide, by decide⟩

/-! ## The machine with the overflow flag: what each routine does -/

theorem Sonido_PULSACION_tono_hw_eq (m : Maquina) :
    Sonido_PULSACION_tono_hw m = { cpu := Sonido_PULSACION_tono m.cpu, TOV0 := true } := by
  simp [Sonido_PULSACION_tono_hw, Sonido_PULSACION_tono, en_cpu, _delay_ms_hw, PWM__Beep_Enable,
    PWM__Beep_Disable, Beep, Enable_PWM, Disable_PWM, _delay_ms, COM0B1, WGM01, WGM02, WGM03,
    CS00]

set_option maxRecDepth 100000 in
theorem Activar_Sonido_STOP_hw_eq (m : Maquina) :
    Activar_Sonido_STOP_hw m = { cpu := Activar_Sonido_STOP m.cpu, TOV0 := true } := by
  simp [Activar_Sonido_STOP_hw, Activar_Sonido_STOP, Activar_Sonido_STOP_for_hw,
    Activar_Sonido_STOP_for, Activar_Sonido_STOP_body_hw, Activar_Sonido_STOP_body,
    Enable_Beep_hw, Enable_Beep, en_cpu, _delay_ms_hw, PWM__Beep_Enable,
    PWM__Beep_Disable, Beep, Enable_PWM, Disable_PWM, _delay_ms, COM0B1, WGM01, WGM02, WGM03,
    CS00]

theorem Sonido_PULSACION_hw_idle (m : Maquina) (hS : m.cpu.Flag_Start ≠ 1) :
    Sonido_PULSACION_hw m = { cpu := Sonido_PULSACION m.cpu, TOV0 := true } := by
  simp [Sonido_PULSACION_hw, Sonido_PULSACION, en_cpu, hS, Sonido_PULSACION_tono_hw_eq]

theorem Sonido_PULSACION_hw_wrap (m : Maquina) (hS : m.cpu.Flag_Start = 1)
    (hT : (m.cpu.Tiempo_Acumulado + 1) % 256 = 0) :
    Sonido_PULSACION_hw m = { cpu := Sonido_PULSACION m.cpu, TOV0 := true } := by
  simp [Sonido_PULSACION_hw, Sonido_PULSACION, en_cpu, hS, Sonido_PULSACION_tono_hw_eq,
    Sonido_PULSACION_tono_eq, Iniciar_Conteo_hw, Iniciar_Conteo, hT]

theorem Sonido_PULSACION_hw_uno (m : Maquina) (hS : m.cpu.Flag_Start = 1)
    (hT : (m.cpu.Tiempo_Acumulado + 1) % 256 = 1) :
    Sonido_PULSACION_hw m =
      { cpu := { Sonido_PULSACION m.cpu with Tiempo_Acumulado := 0, Flag_Stop := 1 },
        TOV0 := false } := by
  simp [Sonido_PULSACION_hw, Sonido_PULSACION, en_cpu, hS, Sonido_PULSACION_tono_hw_eq,
    Sonido_PULSACION_tono_eq, Iniciar_Conteo_hw, Iniciar_Conteo, hT, servir, ISR_TIM0_OVF_vect,
    Rele_ON, TOIE0]

theorem Sonido_PULSACION_hw_serve (m : Maquina) (hS : m.cpu.Flag_Start = 1)
    (hT : 1 < (m.cpu.Tiempo_Acumulado + 1) % 256) :
    Sonido_PULSACION_hw m =
      { cpu := { Sonido_PULSACION m.cpu with
                  Tiempo_Acumulado := (m.cpu.Tiempo_Acumulado + 1) % 256 - 1 },
        TOV0 := false } := by
  have h0 : 0 < (m.cpu.Tiempo_Acumulado + 1) % 256 := by omega
  have h1 : (m.cpu.Tiempo_Acumulado + 1) % 256 ≠ 1 := by omega
  have hlt : (m.cpu.Tiempo_Acumulado + 1) % 256 < 256 := Nat.mod_lt _ (by norm_num)
  have hm : ((m.cpu.Tiempo_Acumulado + 1) % 256 - 1) % 256 =
      (m.cpu.Tiempo_Acumulado + 1) % 256 - 1 := Nat.mod_eq_of_lt (by omega)
  simp [Sonido_PULSACION_hw, Sonido_PULSACION, en_cpu, hS, Sonido_PULSACION_tono_hw_eq,
    Sonido_PULSACION_tono_eq, Iniciar_Conteo_hw, Iniciar_Conteo, h0, h1, hT, hm, servir,
    ISR_TIM0_OVF_vect, Rele_ON, TOIE0]

theorem main_fin_hw_cpu (m : Maquina) : (main_fin_hw m).cpu = main_fin m.cpu := by
  unfold main_fin_hw main_fin
  split_ifs
  · simp [Activar_Sonido_STOP_hw_eq, Parar_Conteo_hw, en_cpu]
  · rfl

theorem case_STOP_hw_eq (m : Maquina) :
    case_STOP_hw m = { cpu := case_STOP m.cpu, TOV0 := true } := by
  simp [case_STOP_hw, case_STOP, Activar_Sonido_STOP_hw_eq, Parar_Conteo_hw, en_cpu]

theorem iteracion_hw_eq (v : Nat) (m : Maquina) (hv : v < 256) :
    iteracion_hw v m = main_loop_hw { m with cpu := { m.cpu with ADC_VALUE := v } } := by
  simp [iteracion_hw, en_cpu, ISR_ADC_vect, Nat.mod_eq_of_lt hv]
theorem main_switch_hw_START (m : Maquina) (h : 51 ≤ m.cpu.ADC_VALUE ∧ m.cpu.ADC_VALUE ≤ 61) :
    main_switch_hw m = case_START_hw m := by
  have e : switch_case m.cpu.ADC_VALUE = ButtonEvent.START := by
    rw [switch_case_eq, if_pos h]
  simp only [main_switch_hw, e]

theorem case_START_inicio_hw_zero (m : Maquina) (h : m.cpu.Tiempo_Acumulado = 0) :
    case_START_inicio_hw m =
      { m with cpu := { m.cpu with
          Flag_Pause := if m.cpu.Flag_Pause = 1 then 0 else m.cpu.Flag_Pause,
          Flag_Start := 1 } } := by
  unfold case_START_inicio_hw
  split_ifs with hp
  · simp [Iniciar_Conteo_hw, h, en_cpu, hp]
  · simp [Iniciar_Conteo_hw, h, en_cpu, hp]

/-- Claim C4.  For every state of the machine with `Tiempo_Acumulado = 0` (the relay
off or not, in particular the power-on state), a main-loop iteration whose sample is
in the START band ends with the relay bit `PORTB2` cleared and the countdown timer
stopped (`TCCR0B = TIMSK0 = 0`), the counter still 0 and `Flag_Start = 0`, after one
alarm: the chirp of the START arm brings the counter to 1 and restarts the timer, the
overflow its tone left pending is served at line 150 and takes the minute back with
`Flag_Stop = 1`, and the completion check of the same iteration stops timer and
relay. -/
theorem start_at_zero_leaves_relay_off (m : Maquina) (v : Nat)
    (hT : m.cpu.Tiempo_Acumulado = 0) (hv : 51 ≤ v ∧ v ≤ 61) :
    relay (iteracion_hw v m).cpu = false ∧
    stopped (iteracion_hw v m).cpu ∧
    (iteracion_hw v m).cpu.Tiempo_Acumulado = 0 ∧
    (iteracion_hw v m).cpu.Flag_Start = 0 ∧
    alarms (iteracion_hw v m).cpu = alarms m.cpu + 1 := by
  have hlt : v < 256 := by omega
  rw [iteracion_hw_eq v m hlt, main_loop_hw, main_fin_hw_cpu,
    main_switch_hw_START _ hv, case_START_hw,
    case_START_inicio_hw_zero { m with cpu := { m.cpu with ADC_VALUE := v } } hT,
    Sonido_PULSACION_hw_uno _ rfl (by simp [hT])]
  rw [main_fin_done _ ⟨rfl, rfl⟩, Sonido_PULSACION_running _ rfl (by simp [hT])]
  refine ⟨?_, ?_, rfl, rfl, ?_⟩
  · simp [relay, testBit_clrBit8_self]
  · simp [stopped]
  · simp [alarms, List.count_append, List.count_cons, count_alarm_alarm_log,
      count_alarm_tono_log]

set_option maxRecDepth 100000 in
/-- Witness of `start_at_zero_leaves_relay_off`: the power-on state and the START
sample 55. -/
theorem start_at_zero_leaves_relay_off_witness :
    maquina_inicial.cpu.Tiempo_Acumulado = 0 ∧ relay maquina_inicial.cpu = false ∧
    relay (iteracion_hw 55 maquina_inicial).cpu = false ∧
    stopped (iteracion_hw 55 maquina_inicial).cpu :=
  have h := start_at_zero_leaves_relay_off maquina_inicial 55 (by decide) (by decide)
  ⟨by decide, by decide, h.1, h.2.1⟩

theorem Alcanzable_iteraciones_hw (vs : List Nat) (m : Maquina) (h : Alcanzable m) :
    Alcanzable (iteraciones_hw vs m) := by
  induction vs generalizing m with
  | nil => exact h
  | cons v vs ih => exact ih _ (Alcanzable.iter v m h)

set_option maxRecDepth 1000000 in
/-- Claim C5 (the code departs from it).  On the machine, pending overflows served:
from power-on, 23 presses of the 10 minute button, one of the 1 minute button and
start leave the countdown counting with 254 minutes and the relay on; one more press
of the 1 minute button (sample 100) brings the counter to 255 in the `case` arm, the
chirp wraps it to 0, stops the timer for the tone, and `Iniciar_Conteo` does not
restart it because the counter is 0.  That iteration ends with the relay bit set while
the timer is stopped. -/
theorem relay_on_timer_stopped_after_wrap :
    Alcanzable (iteraciones_hw muestras_256 maquina_inicial) ∧
    (iteraciones_hw muestras_255 maquina_inicial).cpu.Tiempo_Acumulado = 254 ∧
    counting (iteraciones_hw muestras_255 maquina_inicial).cpu ∧
    relay (iteraciones_hw muestras_255 maquina_inicial).cpu = true ∧
    (iteraciones_hw muestras_256 maquina_inicial).cpu.Tiempo_Acumulado = 0 ∧
    (iteraciones_hw muestras_256 maquina_inicial).cpu.Flag_Stop = 0 ∧
    relay (iteraciones_hw muestras_256 maquina_inicial).cpu = true ∧
    stopped (iteraciones_hw muestras_256 maquina_inicial).cpu ∧
    ¬ counting (iteraciones_hw muestras_256 maquina_inicial).cpu :=
  ⟨Alcanzable_iteraciones_hw _ _ Alcanzable.init, by decide, by decide, by decide, by decide,
    by decide, by decide, by decide, by decide⟩
/-! ## The invariant of the main loop on the machine -/

theorem InvM_Sonido_PULSACION_hw (m : Maquina) : InvM (Sonido_PULSACION_hw m) := by
  have hlt : (m.cpu.Tiempo_Acumulado + 1) % 256 < 256 := Nat.mod_lt _ (by norm_num)
  by_cases hS : m.cpu.Flag_Start = 1
  · rcases Nat.lt_trichotomy ((m.cpu.Tiempo_Acumulado + 1) % 256) 1 with h0 | h1 | h2
    · have h0' : (m.cpu.Tiempo_Acumulado + 1) % 256 = 0 := by omega
      rw [Sonido_PULSACION_hw_wrap m hS h0']
      refine ⟨Inv_Sonido_PULSACION m.cpu, fun _ => ?_⟩
      rw [Sonido_PULSACION_Tiempo, h0']
      omega
    · have hne : (m.cpu.Tiempo_Acumulado + 1) % 256 ≠ 0 := by omega
      rw [Sonido_PULSACION_hw_uno m hS h1, Sonido_PULSACION_running m.cpu hS hne]
      simp [InvM, Inv, TOIE0, relay, testBit_setBit8_self, PORTB2]
    · have hne : (m.cpu.Tiempo_Acumulado + 1) % 256 ≠ 0 := by omega
      have hpos : (m.cpu.Tiempo_Acumulado + 1) % 256 - 1 ≠ 0 := by omega
      have hle : (m.cpu.Tiempo_Acumulado + 1) % 256 - 1 ≤ 254 := by omega
      have hl2 : (m.cpu.Tiempo_Acumulado + 1) % 256 - 1 < 256 := by omega
      rw [Sonido_PULSACION_hw_serve m hS h2, Sonido_PULSACION_running m.cpu hS hne]
      simp [InvM, Inv, TOIE0, relay, testBit_setBit8_self, PORTB2, hpos, hle, hl2]
  · rw [Sonido_PULSACION_hw_idle m hS]
    refine ⟨Inv_Sonido_PULSACION m.cpu, fun h => ?_⟩
    rw [Sonido_PULSACION_idle m.cpu hS] at h
    exact absurd h hS

theorem InvM_case_PAUSE_hw (m : Maquina) (h : InvM m) : InvM (case_PAUSE_hw m) := by
  by_cases hP : m.cpu.Flag_Pause = 0
  · obtain ⟨⟨a1, _, _, _⟩, a2⟩ := InvM_Sonido_PULSACION_hw m
    simp only [case_PAUSE_hw, hP, if_true, Parar_Conteo_hw, en_cpu, Parar_Conteo_eq]
    refine ⟨⟨a1, ?_, ?_, ?_⟩, a2⟩ <;> simp [TOIE0]
  · simpa [case_PAUSE_hw, hP] using h

theorem InvM_case_STOP_hw (m : Maquina) : InvM (case_STOP_hw m) := by
  rw [case_STOP_hw_eq]
  exact ⟨Inv_case_STOP m.cpu, fun h => by rw [case_STOP_eq] at h; simp at h⟩

theorem InvM_main_switch_hw (m : Maquina) (h : InvM m) : InvM (main_switch_hw m) := by
  unfold main_switch_hw
  split
  · exact InvM_Sonido_PULSACION_hw _
  · exact InvM_case_STOP_hw _
  · exact InvM_case_PAUSE_hw _ h
  · exact InvM_Sonido_PULSACION_hw _
  · exact InvM_Sonido_PULSACION_hw _
  · exact InvM_Sonido_PULSACION_hw _
  · exact h

theorem InvM_main_fin_hw (m : Maquina) (h : InvM m) : InvM (main_fin_hw m) := by
  refine ⟨by rw [main_fin_hw_cpu]; exact Inv_main_fin _ h.1, ?_⟩
  rw [main_fin_hw_cpu]
  by_cases hc : m.cpu.Tiempo_Acumulado = 0 ∧ m.cpu.Flag_Stop = 1
  · rw [main_fin_done _ hc]
    intro hs
    simp at hs
  · rw [main_fin_idle _ hc]
    exact h.2

theorem InvM_desborde (m : Maquina) (h : InvM m) : InvM (desborde m) := by
  refine ⟨Inv_ISR_TIM0_OVF_vect _ h.1, ?_⟩
  have hlt := h.1.1
  have h2 := h.2
  simp only [desborde, ISR_TIM0_OVF_vect]
  split_ifs
  · intro _; simp
  · intro hs
    have := h2 hs
    show (m.cpu.Tiempo_Acumulado - 1) % 256 ≤ 254
    omega
  · intro hs
    have := h2 hs
    show (m.cpu.Tiempo_Acumulado - 1) % 256 ≤ 254
    omega
  · exact h2

theorem InvM_Alcanzable (m : Maquina) (h : Alcanzable m) : InvM m := by
  induction h with
  | init => unfold InvM Inv; decide
  | iter v m _ ih => exact InvM_main_fin_hw _ (InvM_main_switch_hw _ ih)
  | ovf m _ _ ih => exact InvM_desborde m ih

set_option maxRecDepth 100000 in
/-- Claim C11, counterexample.  On the machine, the state after one iteration with
the ADD_1MIN sample 100 from power-on is reachable and is the end of a main-loop
iteration; in it `Tiempo_Acumulado = 2 > 0` while the overflow interrupt is disabled
and the relay bit is cleared. -/
theorem minutes_without_timer_or_relay :
    Alcanzable (iteracion_hw 100 maquina_inicial) ∧
    0 < (iteracion_hw 100 maquina_inicial).cpu.Tiempo_Acumulado ∧
    ¬ ((iteracion_hw 100 maquina_inicial).cpu.TIMSK0 = 1 <<< TOIE0 ∧
        relay (iteracion_hw 100 maquina_inicial).cpu = true) ∧
    ¬ (0 < (iteracion_hw 100 maquina_inicial).cpu.Tiempo_Acumulado ↔
        ((iteracion_hw 100 maquina_inicial).cpu.TIMSK0 = 1 <<< TOIE0 ∧
          relay (iteracion_hw 100 maquina_inicial).cpu = true)) :=
  ⟨Alcanzable.iter 100 maquina_inicial Alcanzable.init, by decide, by decide, by decide⟩

/-- Claim C11, as amended.  In every state of the machine reachable from power-on by
main-loop iterations (any samples, pending overflows served) and overflows of the
counting timer, observed at the end of a main-loop iteration: if the overflow
interrupt is enabled (`TIMSK0 = TOIE0`) then the relay bit is set and
`Tiempo_Acumulado > 0`; and if `Tiempo_Acumulado > 0` while the engine is RUNNING and
not paused (`Flag_Start = 1`, `Flag_Pause = 0`) then the overflow interrupt is enabled
and the relay bit is set. -/
theorem counter_timer_relay_invariant (m : Maquina) (h : Alcanzable m) (v : Nat) :
    ((iteracion_hw v m).cpu.TIMSK0 = 1 <<< TOIE0 →
      relay (iteracion_hw v m).cpu = true ∧ 0 < (iteracion_hw v m).cpu.Tiempo_Acumulado) ∧
    (0 < (iteracion_hw v m).cpu.Tiempo_Acumulado → (iteracion_hw v m).cpu.Flag_Start = 1 →
      (iteracion_hw v m).cpu.Flag_Pause = 0 →
      (iteracion_hw v m).cpu.TIMSK0 = 1 <<< TOIE0 ∧ relay (iteracion_hw v m).cpu = true) := by
  have h0 : InvM (en_cpu (ISR_ADC_vect v) m) := InvM_Alcanzable m h
  have hm : InvM (main_switch_hw (en_cpu (ISR_ADC_vect v) m)) := InvM_main_switch_hw _ h0
  have hi : InvM (iteracion_hw v m) := InvM_main_fin_hw _ hm
  refine ⟨fun ht => ⟨hi.1.2.1 ht, ?_⟩, fun hpos hs hp => hi.1.2.2.2 hs hp (by omega)⟩
  have e : (iteracion_hw v m).cpu = main_fin (main_switch_hw (en_cpu (ISR_ADC_vect v) m)).cpu :=
    main_fin_hw_cpu _
  rw [e] at ht ⊢
  exact main_fin_TIMSK0 _ hm.1 ht

set_option maxRecDepth 100000 in
/-- Witness of `counter_timer_relay_invariant`: on the machine, from power-on, after
the samples 100 (ADD_1MIN) and 55 (START) the interrupt is enabled, the relay is on
and 1 minute is left. -/
theorem counter_timer_relay_invariant_witness :
    (iteracion_hw 55 (iteracion_hw 100 maquina_inicial)).cpu.TIMSK0 = 1 <<< TOIE0 ∧
    relay (iteracion_hw 55 (iteracion_hw 100 maquina_inicial)).cpu = true ∧
    0 < (iteracion_hw 55 (iteracion_hw 100 maquina_inicial)).cpu.Tiempo_Acumulado ∧
    (iteracion_hw 55 (iteracion_hw 100 maquina_inicial)).cpu.Tiempo_Acumulado = 1 :=
  have h := counter_timer_relay_invariant (iteracion_hw 100 maquina_inicial)
    (Alcanzable.iter 100 maquina_inicial Alcanzable.init) 55
  ⟨by decide, (h.1 (by decide)).1, (h.1 (by decide)).2, by decide⟩
end Lavadora
